import Mathlib

/-!
Verification of the BioSim predator-prey simulation engine
(`SimuladorVida.py`).  The simulation's float arithmetic is modelled over
the real numbers; `pygame.math.Vector2` becomes the structure `Vec2`
below, and each class method of the source becomes a Lean function on an
explicit state value.  Randomness (Python `random`) is passed in
explicitly as oracle parameters.
-/

noncomputable section

namespace BioSim

/-- Two-dimensional vector, modelling `pygame.math.Vector2`. -/
structure Vec2 where
  x : ℝ
  y : ℝ

namespace Vec2

def add (a b : Vec2) : Vec2 := ⟨a.x + b.x, a.y + b.y⟩

def sub (a b : Vec2) : Vec2 := ⟨a.x - b.x, a.y - b.y⟩

def smul (c : ℝ) (a : Vec2) : Vec2 := ⟨c * a.x, c * a.y⟩

instance : Add Vec2 := ⟨add⟩

instance : Sub Vec2 := ⟨sub⟩

instance : HMul ℝ Vec2 Vec2 := ⟨smul⟩

def zero : Vec2 := ⟨0, 0⟩

/-- `Vector2.length_squared()`. -/
def lengthSq (v : Vec2) : ℝ := v.x ^ 2 + v.y ^ 2

/-- `Vector2.length()`. -/
def len (v : Vec2) : ℝ := Real.sqrt v.lengthSq

/-- `a.distance_to(b)`: Euclidean distance. -/
def distance_to (a b : Vec2) : ℝ := len (b.sub a)

/-- `Vector2.scale_to_length(L)`: rescale to the given length.  In the
source this is only invoked on vectors of nonzero length; the division
by zero case (Lean convention: result `0`) is never reached there. -/
def scale_to_length (v : Vec2) (L : ℝ) : Vec2 := (L / v.len) * v

/-- `Vector2.normalize()` (guarded in the source by a positive-length test). -/
def normalize (v : Vec2) : Vec2 := (1 / v.len) * v

@[simp] theorem add_x (a b : Vec2) : (a + b).x = a.x + b.x := rfl
@[simp] theorem add_y (a b : Vec2) : (a + b).y = a.y + b.y := rfl
@[simp] theorem sub_x (a b : Vec2) : (a - b).x = a.x - b.x := rfl
@[simp] theorem sub_y (a b : Vec2) : (a - b).y = a.y - b.y := rfl
@[simp] theorem smul_x (c : ℝ) (a : Vec2) : (c * a).x = c * a.x := rfl
@[simp] theorem smul_y (c : ℝ) (a : Vec2) : (c * a).y = c * a.y := rfl
@[simp] theorem sub_def (a b : Vec2) : a.sub b = a - b := rfl

theorem lengthSq_nonneg (v : Vec2) : 0 ≤ v.lengthSq := by
  have hx : 0 ≤ v.x ^ 2 := sq_nonneg _
  have hy : 0 ≤ v.y ^ 2 := sq_nonneg _
  simpa [lengthSq] using add_nonneg hx hy

theorem len_nonneg (v : Vec2) : 0 ≤ v.len := Real.sqrt_nonneg _

theorem len_sq (v : Vec2) : v.len ^ 2 = v.lengthSq :=
  Real.sq_sqrt (lengthSq_nonneg v)

/-- Compare a length with a nonnegative bound via squares. -/
theorem len_lt_iff (v : Vec2) {m : ℝ} (hm : 0 < m) :
    v.len < m ↔ v.lengthSq < m ^ 2 :=
  Real.sqrt_lt' hm

theorem len_le_iff (v : Vec2) {m : ℝ} (hm : 0 ≤ m) :
    v.len ≤ m ↔ v.lengthSq ≤ m ^ 2 := by
  constructor
  · intro h
    calc v.lengthSq = v.len ^ 2 := (len_sq v).symm
    _ ≤ m ^ 2 := by nlinarith [len_nonneg v]
  · intro h
    have := Real.sqrt_le_sqrt h
    calc v.len ≤ Real.sqrt (m ^ 2) := this
    _ = m := Real.sqrt_sq hm

theorem len_smul (c : ℝ) (v : Vec2) : (c * v).len = |c| * v.len := by
  unfold len lengthSq
  have : (c * v).x ^ 2 + (c * v).y ^ 2 = c ^ 2 * (v.x ^ 2 + v.y ^ 2) := by
    simp [smul_x, smul_y]; ring
  rw [this, Real.sqrt_mul (sq_nonneg c), Real.sqrt_sq_eq_abs]

theorem len_scale_to_length (v : Vec2) {L : ℝ} (hL : 0 ≤ L) (hv : v.len ≠ 0) :
    (v.scale_to_length L).len = L := by
  unfold scale_to_length
  rw [len_smul, abs_div, abs_of_nonneg hL, abs_of_nonneg (len_nonneg v),
    div_mul_cancel₀ _ hv]

theorem len_zero_iff (v : Vec2) : v.len = 0 ↔ v.lengthSq = 0 := by
  unfold len
  exact Real.sqrt_eq_zero (lengthSq_nonneg v)

/-- An axis-aligned coordinate difference is bounded by the distance. -/
theorem abs_sub_x_le_distance (a b : Vec2) : |b.x - a.x| ≤ a.distance_to b := by
  unfold distance_to len lengthSq
  have h1 : |b.x - a.x| = Real.sqrt ((b.sub a).x ^ 2) := by
    rw [Real.sqrt_sq_eq_abs]; rfl
  rw [h1]
  apply Real.sqrt_le_sqrt
  have := sq_nonneg (b.sub a).y
  linarith

theorem abs_sub_y_le_distance (a b : Vec2) : |b.y - a.y| ≤ a.distance_to b := by
  unfold distance_to len lengthSq
  have h1 : |b.y - a.y| = Real.sqrt ((b.sub a).y ^ 2) := by
    rw [Real.sqrt_sq_eq_abs]; rfl
  rw [h1]
  apply Real.sqrt_le_sqrt
  have := sq_nonneg (b.sub a).x
  linarith

end Vec2

/-! ## Configuration constants (top of `SimuladorVida.py`) -/

def WORLD_W : ℝ := 2000
def WORLD_H : ℝ := 2000
def CELL_SIZE : ℝ := 120
def FOOD_RATE : ℝ := 0.3
def PREY_METABOLISM : ℝ := 0.5
def PRED_METABOLISM : ℝ := 0.8
def REPRO_COST_PREY : ℝ := 100
def REPRO_COST_PRED : ℝ := 250

/-! ## `SpatialGrid`

The Python class keeps a dict from integer cell coordinates to lists of
objects.  We model the dict as a total function into lists (a missing key
is the empty bucket, exactly the `if (x, y) in self.cells` guard of
`get_nearby`).  The cell of a position is
`(int(pos.x // CELL_SIZE), int(pos.y // CELL_SIZE))`, i.e. floors. -/

def cellOf (p : Vec2) : ℤ × ℤ := (⌊p.x / CELL_SIZE⌋, ⌊p.y / CELL_SIZE⌋)

def SpatialGrid (E : Type) : Type := ℤ × ℤ → List E

namespace SpatialGrid

variable {E : Type}

/-- `SpatialGrid.clear` / a fresh grid: every bucket empty. -/
def clear : SpatialGrid E := fun _ => []

/-- `SpatialGrid.add(obj)`: append the object to the bucket of its cell.
`posOf` extracts the object's `pos` field. -/
def add (posOf : E → Vec2) (g : SpatialGrid E) (e : E) : SpatialGrid E :=
  fun c => if c = cellOf (posOf e) then g c ++ [e] else g c

/-- Insert a whole list, in order (the per-tick rebuild loop). -/
def build (posOf : E → Vec2) (l : List E) : SpatialGrid E :=
  l.foldl (add posOf) clear

/-- The cells scanned by `get_nearby`: the square
`range(cx-r, cx+r+1) × range(cy-r, cy+r+1)`, x outer, y inner. -/
def nearCells (c : ℤ × ℤ) (r : ℕ) : List (ℤ × ℤ) :=
  (List.range (2 * r + 1)).flatMap fun (i : ℕ) =>
    (List.range (2 * r + 1)).map fun (j : ℕ) =>
      (c.1 - (r : ℤ) + (i : ℤ), c.2 - (r : ℤ) + (j : ℤ))

/-- `SpatialGrid.get_nearby(pos, r)`: concatenate the buckets of all
cells in the `(2r+1) × (2r+1)` square around the cell of `pos`. -/
def get_nearby (g : SpatialGrid E) (p : Vec2) (r : ℕ) : List E :=
  (nearCells (cellOf p) r).foldr (fun c acc => g c ++ acc) []

theorem add_apply_eq (posOf : E → Vec2) (g : SpatialGrid E) (e : E) {c : ℤ × ℤ}
    (h : c = cellOf (posOf e)) : add posOf g e c = g c ++ [e] := by
  simp only [add]
  rw [if_pos h]

theorem add_apply_ne (posOf : E → Vec2) (g : SpatialGrid E) (e : E) {c : ℤ × ℤ}
    (h : c ≠ cellOf (posOf e)) : add posOf g e c = g c := by
  simp only [add]
  rw [if_neg h]

theorem mem_nearCells {c q : ℤ × ℤ} {r : ℕ} :
    q ∈ nearCells c r ↔ |q.1 - c.1| ≤ (r : ℤ) ∧ |q.2 - c.2| ≤ (r : ℤ) := by
  unfold nearCells
  simp only [List.mem_flatMap, List.mem_map, List.mem_range]
  constructor
  · rintro ⟨i, hi, j, hj, rfl⟩
    constructor
    · simp only [abs_le]
      omega
    · simp only [abs_le]
      omega
  · rintro ⟨h1, h2⟩
    rw [abs_le] at h1 h2
    refine ⟨(q.1 - c.1 + r).toNat, by omega, (q.2 - c.2 + r).toNat, by omega, ?_⟩
    have e1 : ((q.1 - c.1 + r).toNat : ℤ) = q.1 - c.1 + r := by omega
    have e2 : ((q.2 - c.2 + r).toNat : ℤ) = q.2 - c.2 + r := by omega
    rw [e1, e2]
    obtain ⟨q1, q2⟩ := q
    simp only [Prod.mk.injEq]
    exact ⟨by omega, by omega⟩

theorem nearCells_nodup (c : ℤ × ℤ) (r : ℕ) : (nearCells c r).Nodup := by
  unfold nearCells
  apply List.nodup_flatMap.2
  constructor
  · intro i _
    apply List.Nodup.map
    · intro a b hab
      have h2 : c.2 - (r : ℤ) + (a : ℤ) = c.2 - (r : ℤ) + (b : ℤ) :=
        congrArg Prod.snd hab
      omega
    · exact List.nodup_range (2 * r + 1)
  · refine List.Pairwise.imp ?_ (List.pairwise_lt_range (2 * r + 1))
    intro i j hij q hq hq'
    simp only [List.mem_map] at hq hq'
    obtain ⟨a, _, rfl⟩ := hq
    obtain ⟨b, _, h⟩ := hq'
    have h1 : c.1 - (r : ℤ) + (j : ℤ) = c.1 - (r : ℤ) + (i : ℤ) :=
      congrArg Prod.fst h
    omega

theorem mem_get_nearby {g : SpatialGrid E} {p : Vec2} {r : ℕ} {e : E} :
    e ∈ g.get_nearby p r ↔
      ∃ q : ℤ × ℤ, |q.1 - (cellOf p).1| ≤ (r : ℤ) ∧
        |q.2 - (cellOf p).2| ≤ (r : ℤ) ∧ e ∈ g q := by
  unfold get_nearby
  have h : ∀ L : List (ℤ × ℤ),
      e ∈ L.foldr (fun c acc => g c ++ acc) [] ↔ ∃ q ∈ L, e ∈ g q := by
    intro L
    induction L with
    | nil => simp
    | cons c L ih =>
      simp only [List.foldr_cons, List.mem_append, ih, List.mem_cons]
      constructor
      · rintro (he | ⟨q, hq, hqe⟩)
        · exact ⟨c, Or.inl rfl, he⟩
        · exact ⟨q, Or.inr hq, hqe⟩
      · rintro ⟨q, hq | hq, hqe⟩
        · exact Or.inl (hq ▸ hqe)
        · exact Or.inr ⟨q, hq, hqe⟩
  rw [h]
  constructor
  · rintro ⟨q, hq, he⟩
    rw [mem_nearCells] at hq
    exact ⟨q, hq.1, hq.2, he⟩
  · rintro ⟨q, h1, h2, he⟩
    exact ⟨q, mem_nearCells.2 ⟨h1, h2⟩, he⟩

theorem get_nearby_clear (p : Vec2) (r : ℕ) :
    (clear : SpatialGrid E).get_nearby p r = [] := by
  unfold get_nearby clear
  induction nearCells (cellOf p) r with
  | nil => rfl
  | cons c L ih => simp [ih]

theorem foldr_add_notin (posOf : E → Vec2) (g : SpatialGrid E) (e : E)
    {L : List (ℤ × ℤ)} (hnotin : cellOf (posOf e) ∉ L) :
    L.foldr (fun c acc => add posOf g e c ++ acc) [] =
      L.foldr (fun c acc => g c ++ acc) [] := by
  induction L with
  | nil => rfl
  | cons d L ih =>
    simp only [List.foldr_cons]
    have hd : d ≠ cellOf (posOf e) := by
      intro hde
      exact hnotin (hde ▸ List.mem_cons_self d L)
    rw [ih (fun hmem => hnotin (List.mem_cons_of_mem d hmem)),
      add_apply_ne posOf g e hd]

theorem foldr_add_perm (posOf : E → Vec2) (g : SpatialGrid E) (e : E)
    {L : List (ℤ × ℤ)} (hnd : L.Nodup) (h : cellOf (posOf e) ∈ L) :
    List.Perm (L.foldr (fun c acc => add posOf g e c ++ acc) [])
      (e :: L.foldr (fun c acc => g c ++ acc) []) := by
  induction L with
  | nil => cases h
  | cons c L ih =>
    rcases List.mem_cons.1 h with hc | hm
    · have hnotin : cellOf (posOf e) ∉ L := by
        rw [List.nodup_cons] at hnd
        exact hc ▸ hnd.1
      simp only [List.foldr_cons]
      rw [foldr_add_notin posOf g e hnotin, add_apply_eq posOf g e hc.symm]
      have heq : (g c ++ [e]) ++ L.foldr (fun q acc => g q ++ acc) [] =
          g c ++ (e :: L.foldr (fun q acc => g q ++ acc) []) := by simp
      rw [heq]
      exact List.perm_middle
    · have hc : c ≠ cellOf (posOf e) := by
        rw [List.nodup_cons] at hnd
        intro hce
        exact hnd.1 (hce ▸ hm)
      simp only [List.foldr_cons]
      rw [add_apply_ne posOf g e hc]
      have hperm := ih (List.Nodup.of_cons hnd) hm
      exact ((List.Perm.append_left (g c) hperm).trans List.perm_middle)

/-- Adding an object whose cell is scanned contributes exactly one new
occurrence to the query result. -/
theorem get_nearby_add_perm (posOf : E → Vec2) (g : SpatialGrid E) (e : E)
    {p : Vec2} {r : ℕ} (h : cellOf (posOf e) ∈ nearCells (cellOf p) r) :
    List.Perm ((add posOf g e).get_nearby p r) (e :: g.get_nearby p r) :=
  foldr_add_perm posOf g e (nearCells_nodup (cellOf p) r) h

/-- Round trip: building a grid from a list of objects whose cells are
all scanned, the query returns exactly those objects (as a permutation:
nothing lost, nothing duplicated). -/
theorem get_nearby_build_perm (posOf : E → Vec2) (l : List E)
    {p : Vec2} {r : ℕ}
    (h : ∀ e ∈ l, cellOf (posOf e) ∈ nearCells (cellOf p) r) :
    List.Perm ((build posOf l).get_nearby p r) l := by
  suffices H : ∀ (l : List E) (g : SpatialGrid E),
      (∀ e ∈ l, cellOf (posOf e) ∈ nearCells (cellOf p) r) →
      List.Perm ((l.foldl (add posOf) g).get_nearby p r)
        (l ++ g.get_nearby p r) by
    have := H l clear h
    rw [get_nearby_clear] at this
    simpa using this
  intro l
  induction l with
  | nil =>
    intro g _
    simp [List.foldl]
  | cons e l ih =>
    intro g hcov
    simp only [List.foldl_cons]
    have h1 := ih (add posOf g e) (fun x hx => hcov x (List.mem_cons_of_mem e hx))
    have h2 := get_nearby_add_perm posOf g e (hcov e (List.mem_cons_self e l))
    have h3 : List.Perm (l ++ (add posOf g e).get_nearby p r)
        (l ++ (e :: g.get_nearby p r)) := List.Perm.append_left l h2
    have h4 : List.Perm (l ++ (e :: g.get_nearby p r))
        (e :: (l ++ g.get_nearby p r)) := List.perm_middle
    exact (h1.trans h3).trans h4

end SpatialGrid

/-! ## Entities and agents

`Entity.__init__` stores a position and an `active` flag.  `Food` adds
nothing (its `draw` is rendering, out of scope).  `Agent.__init__` adds
velocity, an acceleration accumulator, the dna dict, energy, a cap and a
wander angle.  Prey and predators share this state; they differ only in
their `update` method and their initial values. -/

/-- A food pellet: `Entity` with no extra simulation state. -/
structure Food where
  pos : Vec2
  active : Bool

/-- The dna dict `{'speed': _, 'force': _, 'sense': _}`. -/
structure DNA where
  speed : ℝ
  force : ℝ
  sense : ℝ

/-- Mutation at reproduction:
`{k: v * random.uniform(0.9, 1.1) for k, v in p.dna.items()}`.
The three independently drawn factors are passed in explicitly. -/
def mutateDNA (d : DNA) (f1 f2 f3 : ℝ) : DNA :=
  ⟨d.speed * f1, d.force * f2, d.sense * f3⟩

/-- The mutable state of an `Agent` (prey or predator). -/
structure AgentState where
  pos : Vec2
  vel : Vec2
  acc : Vec2
  dna : DNA
  energy : ℝ
  max_energy : ℝ
  active : Bool
  wander_theta : ℝ

/-- Per-agent random draws consumed during one tick: the wander-angle
increment, the three dna mutation factors and the initial velocity and
wander angle given to an offspring created this tick. -/
structure AgentRnd where
  u : ℝ
  f1 : ℝ
  f2 : ℝ
  f3 : ℝ
  childVel : Vec2
  childTheta : ℝ

def preyDefaultDNA : DNA := ⟨3.5, 0.5, 100⟩

def predDefaultDNA : DNA := ⟨4.2, 0.3, 180⟩

/-- `Prey.__init__`: energy 150, `max_energy` 400, active, random initial
velocity and wander angle. -/
def mkPrey (pos : Vec2) (dna : DNA) (v0 : Vec2) (w0 : ℝ) : AgentState :=
  ⟨pos, v0, ⟨0, 0⟩, dna, 150, 400, true, w0⟩

/-- `Predator.__init__`: as `Agent.__init__` but energy 300. -/
def mkPredator (pos : Vec2) (dna : DNA) (v0 : Vec2) (w0 : ℝ) : AgentState :=
  ⟨pos, v0, ⟨0, 0⟩, dna, 300, 400, true, w0⟩

namespace AgentState

/-- `Agent.edges()`: the "toroidal wrap (Pacman style)".  Note the source
resets a coordinate that crossed an edge to the OPPOSITE BORDER VALUE
(`0` after crossing the high edge, `WORLD_W`/`WORLD_H` after crossing the
low edge), and the four `if`s run in sequence. -/
def edges (a : AgentState) : AgentState :=
  let x1 := if a.pos.x > WORLD_W then 0 else a.pos.x
  let x2 := if x1 < 0 then WORLD_W else x1
  let y1 := if a.pos.y > WORLD_H then 0 else a.pos.y
  let y2 := if y1 < 0 then WORLD_H else y1
  { a with pos := ⟨x2, y2⟩ }

/-- `Agent.update_physics()`: integrate acceleration, clamp the speed to
the dna `speed`, move, reset the accumulator, wrap. -/
def update_physics (a : AgentState) : AgentState :=
  let v1 := a.vel + a.acc
  let v2 := if v1.len > a.dna.speed then v1.scale_to_length a.dna.speed else v1
  edges { a with vel := v2, pos := a.pos + v2, acc := ⟨0, 0⟩ }

/-- `Agent.steer(target, mult)`. -/
def steer (a : AgentState) (target : Vec2) (mult : ℝ) : Vec2 :=
  let desired := target - a.pos
  if desired.len = 0 then ⟨0, 0⟩
  else
    let desired2 := desired.scale_to_length a.dna.speed
    let s := desired2 - a.vel
    let s2 := if s.len > a.dna.force then s.scale_to_length a.dna.force else s
    mult * s2

theorem edges_energy (a : AgentState) : (edges a).energy = a.energy := rfl

theorem edges_vel (a : AgentState) : (edges a).vel = a.vel := rfl

theorem edges_acc (a : AgentState) : (edges a).acc = a.acc := rfl

theorem update_physics_energy (a : AgentState) :
    (update_physics a).energy = a.energy := rfl

theorem update_physics_dna (a : AgentState) :
    (update_physics a).dna = a.dna := rfl

theorem update_physics_active (a : AgentState) :
    (update_physics a).active = a.active := rfl

theorem update_physics_acc (a : AgentState) :
    (update_physics a).acc = Vec2.mk 0 0 := rfl

theorem update_physics_max_energy (a : AgentState) :
    (update_physics a).max_energy = a.max_energy := rfl

/-- After `edges()` both coordinates lie in the closed intervals
`[0, WORLD_W]` and `[0, WORLD_H]` (closed on the right: crossing the low
edge lands exactly on the far border value). -/
theorem edges_mem (a : AgentState) :
    0 ≤ (edges a).pos.x ∧ (edges a).pos.x ≤ WORLD_W ∧
      0 ≤ (edges a).pos.y ∧ (edges a).pos.y ≤ WORLD_H := by
  unfold edges
  have hW : (0 : ℝ) ≤ WORLD_W := by norm_num [WORLD_W]
  have hH : (0 : ℝ) ≤ WORLD_H := by norm_num [WORLD_H]
  dsimp only
  constructor
  · split <;> split <;> simp_all
  constructor
  · split <;> split <;> simp_all
  constructor
  · split <;> split <;> simp_all
  · split <;> split <;> simp_all

/-- After `update_physics()` both coordinates lie in
`[0, WORLD_W] × [0, WORLD_H]`. -/
theorem update_physics_mem (a : AgentState) :
    0 ≤ (update_physics a).pos.x ∧ (update_physics a).pos.x ≤ WORLD_W ∧
      0 ≤ (update_physics a).pos.y ∧ (update_physics a).pos.y ≤ WORLD_H :=
  edges_mem _

/-- The speed clamp: after `update_physics` the velocity magnitude is at
most the (nonnegative) dna `speed`. -/
theorem update_physics_speed_clamp (a : AgentState)
    (h : 0 ≤ a.dna.speed) : (update_physics a).vel.len ≤ a.dna.speed := by
  unfold update_physics
  rw [edges_vel]
  dsimp only
  split
  · rename_i hgt
    have hne : (a.vel + a.acc).len ≠ 0 := by
      intro h0
      rw [h0] at hgt
      exact absurd hgt (not_lt.2 h)
    rw [Vec2.len_scale_to_length _ h hne]
  · rename_i hle
    exact le_of_not_lt hle

end AgentState

/-! ## Species behaviour (`Prey.update`, `Predator.update`)

The grids hold references into the canonical entity lists.  Food and prey
are mutated through those references during a pass, so their grids are
modelled as grids of list indices (`SpatialGrid ℕ`); predators are never
mutated by a prey's update, so the predator grid stores the states
themselves.  The nearest-target loops of the source become left folds
carrying the running `(closest, min_dist)` pair, initialised with
`(None, sense)`. -/

/-- Position of the food item behind index `j` (total function; in the
simulation every grid index is in range). -/
def foodPosOf (foods : List Food) (j : ℕ) : Vec2 :=
  ((foods[j]?).map Food.pos).getD Vec2.zero

/-- Position of the agent behind index `j`. -/
def agentPosOf (l : List AgentState) (j : ℕ) : Vec2 :=
  ((l[j]?).map AgentState.pos).getD Vec2.zero

/-- Build an index grid over the first `n` indices of a list, in order
(the `for ...: grid.add(obj)` loops). -/
def buildIdxGrid (posOf : ℕ → Vec2) (n : ℕ) : SpatialGrid ℕ :=
  (List.range n).foldl (SpatialGrid.add posOf) SpatialGrid.clear

/-- The prey's nearest-predator loop (no `active` filter in the source):
`for p in neighbors_pred: d = ...; if d < min_p_dist: ...`. -/
def predScan (pos : Vec2) (sense : ℝ) (neigh : List AgentState) :
    Option AgentState × ℝ :=
  neigh.foldl
    (fun acc p =>
      let d := pos.distance_to p.pos
      if d < acc.2 then (some p, d) else acc)
    (none, sense)

/-- The prey's nearest-food loop, skipping `not f.active`. -/
def foodScan (pos : Vec2) (sense : ℝ) (foods : List Food) (neigh : List ℕ) :
    Option (ℕ × Food) × ℝ :=
  neigh.foldl
    (fun acc j =>
      match foods[j]? with
      | none => acc
      | some f =>
        if f.active then
          let d := pos.distance_to f.pos
          if d < acc.2 then (some (j, f), d) else acc
        else acc)
    (none, sense)

/-- The predator's nearest-prey loop, skipping `not p.active`. -/
def preyScan (pos : Vec2) (sense : ℝ) (prey : List AgentState) (neigh : List ℕ) :
    Option (ℕ × AgentState) × ℝ :=
  neigh.foldl
    (fun acc j =>
      match prey[j]? with
      | none => acc
      | some p =>
        if p.active then
          let d := pos.distance_to p.pos
          if d < acc.2 then (some (j, p), d) else acc
        else acc)
    (none, sense)

/-- The prey's "3. Wander" block: fires when the force accumulated so far
has magnitude `< 0.1`; returns the final force and wander angle. -/
def preyWander (a : AgentState) (f : Vec2) (u : ℝ) : Vec2 × ℝ :=
  if f.len < 0.1 then
    let θ := a.wander_theta + u
    let circle := if a.vel.len > 0 then (30 : ℝ) * a.vel.normalize else ⟨1, 0⟩
    let off := Vec2.mk (10 * Real.cos θ) (10 * Real.sin θ)
    (f + AgentState.steer a (a.pos + circle + off) 0.5, θ)
  else (f, a.wander_theta)

/-- `Prey.update(grid_food, grid_pred)`.  Returns the updated prey state
and the food list after a possible consumption.  `u` is the wander-angle
random increment. -/
def Prey.update (a : AgentState) (foods : List Food) (gF : SpatialGrid ℕ)
    (gP : SpatialGrid AgentState) (u : ℝ) : AgentState × List Food :=
  let e1 := a.energy - (PREY_METABOLISM + a.vel.lengthSq * 0.01)
  let nP := gP.get_nearby a.pos 1
  let nF := gF.get_nearby a.pos 1
  match (predScan a.pos a.dna.sense nP).1 with
  | some pp =>
    let fw := preyWander a (AgentState.steer a pp.pos (-5)) u
    (AgentState.update_physics
      { a with energy := e1, wander_theta := fw.2, acc := a.acc + fw.1 }, foods)
  | none =>
    if e1 < a.max_energy then
      match foodScan a.pos a.dna.sense foods nF with
      | (some (j, fd), dm) =>
        let fw := preyWander a (AgentState.steer a fd.pos 1.5) u
        if dm < 10 then
          (AgentState.update_physics
            { a with energy := e1 + 50, wander_theta := fw.2, acc := a.acc + fw.1 },
            foods.set j { fd with active := false })
        else
          (AgentState.update_physics
            { a with energy := e1, wander_theta := fw.2, acc := a.acc + fw.1 }, foods)
      | (none, _) =>
        let fw := preyWander a ⟨0, 0⟩ u
        (AgentState.update_physics
          { a with energy := e1, wander_theta := fw.2, acc := a.acc + fw.1 }, foods)
    else
      let fw := preyWander a ⟨0, 0⟩ u
      (AgentState.update_physics
        { a with energy := e1, wander_theta := fw.2, acc := a.acc + fw.1 }, foods)

/-- `Predator.update(grid_prey)`.  Returns the updated predator and the
prey list after a possible catch. -/
def Predator.update (a : AgentState) (prey : List AgentState)
    (gPr : SpatialGrid ℕ) (u : ℝ) : AgentState × List AgentState :=
  let e1 := a.energy - (PRED_METABOLISM + a.vel.lengthSq * 0.01)
  let nb := gPr.get_nearby a.pos 2
  match preyScan a.pos a.dna.sense prey nb with
  | (some (j, pq), dm) =>
    let force := AgentState.steer a pq.pos 1.2
    if dm < 12 then
      (AgentState.update_physics { a with energy := e1 + 120, acc := a.acc + force },
        prey.set j { pq with active := false })
    else
      (AgentState.update_physics { a with energy := e1, acc := a.acc + force }, prey)
  | (none, _) =>
    let θ := a.wander_theta + u
    let force := (0.5 : ℝ) * Vec2.mk (Real.cos θ) (Real.sin θ)
    (AgentState.update_physics
      { a with energy := e1, wander_theta := θ, acc := a.acc + force }, prey)

/-! ## The per-tick passes of `run_sim_logic` -/

/-- The prey loop of `run_sim_logic`: update each prey in order (threading
the shared food list), run the reproduction check on the updated agent,
and collect offspring separately; they are appended (`self.prey.extend`)
only after the loop.  `i` indexes the per-agent random draws. -/
def preyPassAux (gF : SpatialGrid ℕ) (gP : SpatialGrid AgentState)
    (R : ℕ → AgentRnd) :
    ℕ → List AgentState → List Food →
      List AgentState × List Food × List AgentState
  | _, [], foods => ([], foods, [])
  | i, p :: rest, foods =>
    let pf := Prey.update p foods gF gP (R i).u
    let pc :=
      if pf.1.energy > REPRO_COST_PREY + 50 then
        ({ pf.1 with energy := pf.1.energy - REPRO_COST_PREY },
          some (mkPrey pf.1.pos
            (mutateDNA pf.1.dna (R i).f1 (R i).f2 (R i).f3)
            (R i).childVel (R i).childTheta))
      else (pf.1, (none : Option AgentState))
    let rec' := preyPassAux gF gP R (i + 1) rest pf.2
    (pc.1 :: rec'.1, rec'.2.1, pc.2.toList ++ rec'.2.2)

/-- The predator loop of `run_sim_logic`, threading the shared prey list. -/
def predPassAux (gPr : SpatialGrid ℕ) (R : ℕ → AgentRnd) :
    ℕ → List AgentState → List AgentState →
      List AgentState × List AgentState × List AgentState
  | _, [], prey => ([], prey, [])
  | i, p :: rest, prey =>
    let pf := Predator.update p prey gPr (R i).u
    let pc :=
      if pf.1.energy > REPRO_COST_PRED + 50 then
        ({ pf.1 with energy := pf.1.energy - REPRO_COST_PRED },
          some (mkPredator pf.1.pos
            (mutateDNA pf.1.dna (R i).f1 (R i).f2 (R i).f3)
            (R i).childVel (R i).childTheta))
      else (pf.1, (none : Option AgentState))
    let rec' := predPassAux gPr R (i + 1) rest pf.2
    (pc.1 :: rec'.1, rec'.2.1, pc.2.toList ++ rec'.2.2)

/-! ## The ecosystem state and `step` -/

inductive Mode
  | INTRO
  | SIM
  | GAMEOVER
deriving DecidableEq

/-- The simulation state mutated by `run_sim_logic` (rendering and camera
fields are out of scope). -/
structure SimState where
  food : List Food
  prey : List AgentState
  preds : List AgentState
  grid_food : SpatialGrid ℕ
  grid_prey : SpatialGrid ℕ
  grid_preds : SpatialGrid AgentState
  mode : Mode
  max_prey : ℕ
  max_pred : ℕ
  hist_prey : List ℕ
  hist_pred : List ℕ

/-- All random draws consumed by one tick. -/
structure Oracle where
  foodCoin : ℝ
  foodPos : Vec2
  preyR : ℕ → AgentRnd
  predR : ℕ → AgentRnd
  statsTick : Bool

/-- `deque(maxlen=200).append`: append right, evict left when full. -/
def pushCapped (l : List ℕ) (n : ℕ) : List ℕ :=
  if l.length < 200 then l ++ [n] else l.drop 1 ++ [n]

/-- The cull pass `[f for f in self.food if f.active]`. -/
def pruneFood (l : List Food) : List Food :=
  l.filter (fun f => f.active)

/-- The cull pass `[p for p in ... if p.active and p.energy > 0]`. -/
def pruneAgents (l : List AgentState) : List AgentState :=
  l.filter (fun p => p.active && decide (p.energy > 0))

/-- One simulation tick: the core of `run_sim_logic` (steps 2-4 of the
source; the event-handling input block is the excluded presentation
layer's control surface, exposed separately as `spawn_predator`). -/
def step (s : SimState) (o : Oracle) : SimState :=
  let food0 := pruneFood s.food
  let prey0 := pruneAgents s.prey
  let preds0 := pruneAgents s.preds
  if prey0.length = 0 ∧ preds0.length = 0 then
    { s with
      food := food0
      prey := prey0
      preds := preds0
      grid_food := SpatialGrid.clear
      grid_prey := SpatialGrid.clear
      grid_preds := SpatialGrid.clear
      mode := Mode.GAMEOVER }
  else
    let gF := buildIdxGrid (foodPosOf food0) food0.length
    let gPr := buildIdxGrid (agentPosOf prey0) prey0.length
    let gP := SpatialGrid.build AgentState.pos preds0
    let food1 :=
      if food0.length < 800 ∧ o.foodCoin < FOOD_RATE then
        food0 ++ [⟨o.foodPos, true⟩]
      else food0
    let preyOut := preyPassAux gF gP o.preyR 0 prey0 food1
    let prey1 := preyOut.1 ++ preyOut.2.2
    let predOut := predPassAux gPr o.predR 0 preds0 prey1
    let preds1 := predOut.1 ++ predOut.2.2
    { s with
      food := preyOut.2.1
      prey := predOut.2.1
      preds := preds1
      grid_food := gF
      grid_prey := gPr
      grid_preds := gP
      max_prey := max s.max_prey (predOut.2.1).length
      max_pred := max s.max_pred preds1.length
      hist_prey :=
        if o.statsTick then pushCapped s.hist_prey (predOut.2.1).length
        else s.hist_prey
      hist_pred :=
        if o.statsTick then pushCapped s.hist_pred preds1.length
        else s.hist_pred }

/-- The left-click control surface:
`self.preds.append(Predator(world_pos.x, world_pos.y))`.  The predator's
random initial velocity and wander angle are passed in. -/
def spawn_predator (s : SimState) (world_pos : Vec2) (v0 : Vec2) (w0 : ℝ) :
    SimState :=
  { s with preds := s.preds ++ [mkPredator world_pos predDefaultDNA v0 w0] }

/-! ## Ghost bookkeeping: which item a consumer eats

These definitions are not part of the source; they name the food index a
prey consumes (resp. the prey index a predator catches) during its
update, and the sequence of such consumptions across a pass.  Lemmas
below connect them to `Prey.update` / `Predator.update`. -/

/-- Deactivate one list element (the `closest.active = False` mutation). -/
def deactivateFoodAt (foods : List Food) (j : ℕ) : List Food :=
  match foods[j]? with
  | some fd => foods.set j { fd with active := false }
  | none => foods

def deactivateAgentAt (l : List AgentState) (j : ℕ) : List AgentState :=
  match l[j]? with
  | some p => l.set j { p with active := false }
  | none => l

/-- The food index consumed by one prey update, if any. -/
def Prey.consumedIdx (a : AgentState) (foods : List Food) (gF : SpatialGrid ℕ)
    (gP : SpatialGrid AgentState) : Option ℕ :=
  let e1 := a.energy - (PREY_METABOLISM + a.vel.lengthSq * 0.01)
  match (predScan a.pos a.dna.sense (gP.get_nearby a.pos 1)).1 with
  | some _ => none
  | none =>
    if e1 < a.max_energy then
      match foodScan a.pos a.dna.sense foods (gF.get_nearby a.pos 1) with
      | (some (j, _), dm) => if dm < 10 then some j else none
      | (none, _) => none
    else none

/-- The prey index caught by one predator update, if any. -/
def Predator.consumedIdx (a : AgentState) (prey : List AgentState)
    (gPr : SpatialGrid ℕ) : Option ℕ :=
  match preyScan a.pos a.dna.sense prey (gPr.get_nearby a.pos 2) with
  | (some (j, _), dm) => if dm < 12 then some j else none
  | (none, _) => none

/-- The food indices consumed across a prey pass, in order. -/
def preyPassConsumed (gF : SpatialGrid ℕ) (gP : SpatialGrid AgentState) :
    List AgentState → List Food → List ℕ
  | [], _ => []
  | p :: rest, foods =>
    match Prey.consumedIdx p foods gF gP with
    | some j => j :: preyPassConsumed gF gP rest (deactivateFoodAt foods j)
    | none => preyPassConsumed gF gP rest foods

/-- The prey indices caught across a predator pass, in order. -/
def predPassConsumed (gPr : SpatialGrid ℕ) :
    List AgentState → List AgentState → List ℕ
  | [], _ => []
  | p :: rest, prey =>
    match Predator.consumedIdx p prey gPr with
    | some j => j :: predPassConsumed gPr rest (deactivateAgentAt prey j)
    | none => predPassConsumed gPr rest prey

/-! ## Ghost decomposition of the passes: update phase vs reproduction

The reproduction decision depends only on the post-update agent, so each
pass factors into a pure update phase followed by a per-agent
reproduction map.  The factorisation is proved below (claim C1). -/

/-- The update half of the prey loop (no reproduction). -/
def preyUpdPhase (gF : SpatialGrid ℕ) (gP : SpatialGrid AgentState)
    (R : ℕ → AgentRnd) :
    ℕ → List AgentState → List Food → List AgentState × List Food
  | _, [], foods => ([], foods)
  | i, p :: rest, foods =>
    let pf := Prey.update p foods gF gP (R i).u
    let rec' := preyUpdPhase gF gP R (i + 1) rest pf.2
    (pf.1 :: rec'.1, rec'.2)

/-- The update half of the predator loop (no reproduction). -/
def predUpdPhase (gPr : SpatialGrid ℕ) (R : ℕ → AgentRnd) :
    ℕ → List AgentState → List AgentState → List AgentState × List AgentState
  | _, [], prey => ([], prey)
  | i, p :: rest, prey =>
    let pf := Predator.update p prey gPr (R i).u
    let rec' := predUpdPhase gPr R (i + 1) rest pf.2
    (pf.1 :: rec'.1, rec'.2)

/-- Reproduction effect on an updated prey: pay `REPRO_COST_PREY` iff the
post-update energy exceeds `REPRO_COST_PREY + 50`. -/
def reproParentPrey (u : AgentState) : AgentState :=
  if u.energy > REPRO_COST_PREY + 50 then
    { u with energy := u.energy - REPRO_COST_PREY }
  else u

/-- The offspring (if any) of the updated prey at pass index `k`. -/
def reproChildPrey (R : ℕ → AgentRnd) (ku : ℕ × AgentState) :
    Option AgentState :=
  if ku.2.energy > REPRO_COST_PREY + 50 then
    some (mkPrey ku.2.pos
      (mutateDNA ku.2.dna (R ku.1).f1 (R ku.1).f2 (R ku.1).f3)
      (R ku.1).childVel (R ku.1).childTheta)
  else none

def reproParentPred (u : AgentState) : AgentState :=
  if u.energy > REPRO_COST_PRED + 50 then
    { u with energy := u.energy - REPRO_COST_PRED }
  else u

def reproChildPred (R : ℕ → AgentRnd) (ku : ℕ × AgentState) :
    Option AgentState :=
  if ku.2.energy > REPRO_COST_PRED + 50 then
    some (mkPredator ku.2.pos
      (mutateDNA ku.2.dna (R ku.1).f1 (R ku.1).f2 (R ku.1).f3)
      (R ku.1).childVel (R ku.1).childTheta)
  else none

/-- In-world position: inside `[0, WORLD_W] × [0, WORLD_H]` (the wrap of
`edges` is right-closed, see `edges_mem`). -/
def inWorld (p : Vec2) : Prop :=
  0 ≤ p.x ∧ p.x ≤ WORLD_W ∧ 0 ≤ p.y ∧ p.y ≤ WORLD_H

/-! ## Concrete scenario states used by witnesses and counterexamples -/

/-- Zero random draws (wander increment 0, mutation factors 1). -/
def rnd0 : AgentRnd := ⟨0, 1, 1, 1, ⟨0, 0⟩, 0⟩

def oracle0 : Oracle := ⟨1, ⟨0, 0⟩, fun _ => rnd0, fun _ => rnd0, false⟩

/-- A prey at the origin, at rest, with energy 149 (below the
reproduction threshold 150). -/
def preyC1 : AgentState :=
  ⟨⟨0, 0⟩, ⟨0, 0⟩, ⟨0, 0⟩, preyDefaultDNA, 149, 400, true, 0⟩

/-- One active food pellet 5 units from the origin. -/
def foodC1 : Food := ⟨⟨5, 0⟩, true⟩

def foodsC1 : List Food := [foodC1]

def gFC1 : SpatialGrid ℕ := buildIdxGrid (foodPosOf foodsC1) foodsC1.length

/-- An agent about to cross the low x edge: position `(0, 5)`, velocity
`(-1, 0)`. -/
def agentC3 : AgentState :=
  ⟨⟨0, 5⟩, ⟨-1, 0⟩, ⟨0, 0⟩, preyDefaultDNA, 150, 400, true, 0⟩

/-- A predator at the origin at rest with energy 300. -/
def predC4 : AgentState := mkPredator ⟨0, 0⟩ predDefaultDNA ⟨0, 0⟩ 0

/-- A prey 7.5 units away (inside the catch radius 12). -/
def preyC4 : AgentState :=
  ⟨⟨7.5, 0⟩, ⟨0, 0⟩, ⟨0, 0⟩, preyDefaultDNA, 100, 400, true, 0⟩

def gPrC4 : SpatialGrid ℕ := buildIdxGrid (agentPosOf [preyC4]) 1

/-- A prey with a mutated genome: `sense = 300 > CELL_SIZE`. -/
def preyC6 : AgentState :=
  ⟨⟨0, 0⟩, ⟨0, 0⟩, ⟨0, 0⟩, ⟨3.5, 0.5, 300⟩, 100, 400, true, 0⟩

/-- A predator 250 units away: within the prey's 300-unit sense radius
but outside the 3 × 3 block of grid cells around the prey. -/
def predC6 : AgentState := mkPredator ⟨250, 0⟩ predDefaultDNA ⟨0, 0⟩ 0

def gPC6 : SpatialGrid AgentState := SpatialGrid.build AgentState.pos [predC6]

/-- A predator 5 units from the origin (well inside a default prey's
sense radius and its 3 × 3 grid block). -/
def predC6w : AgentState := mkPredator ⟨5, 0⟩ predDefaultDNA ⟨0, 0⟩ 0

/-- An ecosystem state with no live prey and no live predators. -/
def stateC2 : SimState :=
  ⟨[⟨⟨1, 1⟩, false⟩], [], [], SpatialGrid.clear, SpatialGrid.clear,
    SpatialGrid.clear, Mode.SIM, 3, 2, [], []⟩

/-- An arbitrary running state used by the spawn scenario. -/
def stateC9 : SimState :=
  ⟨[], [], [], SpatialGrid.clear, SpatialGrid.clear, SpatialGrid.clear,
    Mode.SIM, 0, 0, [], []⟩

/-- Two entities with in-world positions, for the round-trip witness. -/
def foodsC5 : List Food := [⟨⟨5, 7⟩, true⟩, ⟨⟨130, 250⟩, false⟩]

/-! ## Specification lemmas for the nearest-target loops -/

theorem predScan_foldl_le (pos : Vec2) (nb : List AgentState)
    (acc : Option AgentState × ℝ) :
    (nb.foldl
        (fun acc p =>
          let d := pos.distance_to p.pos
          if d < acc.2 then (some p, d) else acc) acc).2 ≤ acc.2 ∧
      ∀ q ∈ nb,
        (nb.foldl
            (fun acc p =>
              let d := pos.distance_to p.pos
              if d < acc.2 then (some p, d) else acc) acc).2 ≤
          pos.distance_to q.pos := by
  induction nb generalizing acc with
  | nil => exact ⟨le_refl _, by simp⟩
  | cons p nb ih =>
    simp only [List.foldl_cons]
    by_cases hd : pos.distance_to p.pos < acc.2
    · rw [if_pos hd]
      obtain ⟨h1, h2⟩ := ih (some p, pos.distance_to p.pos)
      refine ⟨le_of_lt (lt_of_le_of_lt h1 hd), ?_⟩
      intro q hq
      rcases List.mem_cons.1 hq with rfl | hq'
      · exact h1
      · exact h2 q hq'
    · rw [if_neg hd]
      obtain ⟨h1, h2⟩ := ih acc
      refine ⟨h1, ?_⟩
      intro q hq
      rcases List.mem_cons.1 hq with rfl | hq'
      · exact le_trans h1 (le_of_not_lt hd)
      · exact h2 q hq'

theorem predScan_foldl_cases (pos : Vec2) (nb : List AgentState)
    (acc : Option AgentState × ℝ) :
    (nb.foldl
        (fun acc p =>
          let d := pos.distance_to p.pos
          if d < acc.2 then (some p, d) else acc) acc) = acc ∨
      ∃ pp ∈ nb,
        (nb.foldl
            (fun acc p =>
              let d := pos.distance_to p.pos
              if d < acc.2 then (some p, d) else acc) acc) =
          (some pp, pos.distance_to pp.pos) ∧
        pos.distance_to pp.pos < acc.2 := by
  induction nb generalizing acc with
  | nil => exact Or.inl rfl
  | cons p nb ih =>
    simp only [List.foldl_cons]
    by_cases hd : pos.distance_to p.pos < acc.2
    · rw [if_pos hd]
      rcases ih (some p, pos.distance_to p.pos) with h | ⟨pp, hpp, h1, h2⟩
      · exact Or.inr ⟨p, List.mem_cons_self p nb, h, hd⟩
      · exact Or.inr ⟨pp, List.mem_cons_of_mem p hpp, h1, lt_trans h2 hd⟩
    · rw [if_neg hd]
      rcases ih acc with h | ⟨pp, hpp, h1, h2⟩
      · exact Or.inl h
      · exact Or.inr ⟨pp, List.mem_cons_of_mem p hpp, h1, h2⟩

/-- The prey's predator loop finds nothing iff no neighbour is strictly
within `sense` (true Euclidean distance). -/
theorem predScan_none_iff {pos : Vec2} {sense : ℝ} {nb : List AgentState} :
    (predScan pos sense nb).1 = none ↔
      ∀ p ∈ nb, ¬ pos.distance_to p.pos < sense := by
  constructor
  · intro h p hp
    rcases predScan_foldl_cases pos nb (none, sense) with hc | ⟨pp, _, h1, _⟩
    · have h2 := (predScan_foldl_le pos nb (none, sense)).2 p hp
      rw [hc] at h2
      exact not_lt.2 h2
    · unfold predScan at h
      rw [h1] at h
      simp at h
  · intro h
    rcases predScan_foldl_cases pos nb (none, sense) with hc | ⟨pp, hpp, h1, h2⟩
    · unfold predScan
      rw [hc]
    · exact absurd h2 (h pp hpp)

/-- When the prey's predator loop finds a target, that target is a listed
neighbour, strictly within `sense`, at minimal distance among the
neighbours, and the recorded minimum is its distance. -/
theorem predScan_some {pos : Vec2} {sense : ℝ} {nb : List AgentState}
    {pp : AgentState} (h : (predScan pos sense nb).1 = some pp) :
    pp ∈ nb ∧ pos.distance_to pp.pos < sense ∧
      (predScan pos sense nb).2 = pos.distance_to pp.pos ∧
      ∀ q ∈ nb, pos.distance_to pp.pos ≤ pos.distance_to q.pos := by
  rcases predScan_foldl_cases pos nb (none, sense) with hc | ⟨qq, hqq, h1, h2⟩
  · unfold predScan at h
    rw [hc] at h
    simp at h
  · unfold predScan at h
    rw [h1] at h
    simp only [Option.some.injEq] at h
    subst h
    refine ⟨hqq, h2, by unfold predScan; rw [h1], ?_⟩
    intro q hq
    have h3 := (predScan_foldl_le pos nb (none, sense)).2 q hq
    rw [h1] at h3
    exact h3

theorem foodScan_foldl_cases (pos : Vec2) (foods : List Food) (nb : List ℕ)
    (acc : Option (ℕ × Food) × ℝ) :
    ((nb.foldl
        (fun acc j =>
          match foods[j]? with
          | none => acc
          | some f =>
            if f.active then
              let d := pos.distance_to f.pos
              if d < acc.2 then (some (j, f), d) else acc
            else acc) acc) = acc ∨
      ∃ j fd, j ∈ nb ∧ foods[j]? = some fd ∧ fd.active = true ∧
        (nb.foldl
            (fun acc j =>
              match foods[j]? with
              | none => acc
              | some f =>
                if f.active then
                  let d := pos.distance_to f.pos
                  if d < acc.2 then (some (j, f), d) else acc
                else acc) acc) = (some (j, fd), pos.distance_to fd.pos) ∧
        pos.distance_to fd.pos < acc.2) ∧
      (nb.foldl
          (fun acc j =>
            match foods[j]? with
            | none => acc
            | some f =>
              if f.active then
                let d := pos.distance_to f.pos
                if d < acc.2 then (some (j, f), d) else acc
              else acc) acc).2 ≤ acc.2 := by
  induction nb generalizing acc with
  | nil => exact ⟨Or.inl rfl, le_refl _⟩
  | cons j nb ih =>
    simp only [List.foldl_cons]
    cases hj : foods[j]? with
    | none =>
      dsimp only
      rcases ih acc with ⟨h | ⟨j', fd, hj', hfd, hact, h1, h2⟩, hle⟩
      · exact ⟨Or.inl h, hle⟩
      · exact ⟨Or.inr ⟨j', fd, List.mem_cons_of_mem j hj', hfd, hact, h1, h2⟩, hle⟩
    | some f =>
      dsimp only
      by_cases hact : f.active
      · rw [if_pos hact]
        by_cases hd : pos.distance_to f.pos < acc.2
        · rw [if_pos hd]
          rcases ih (some (j, f), pos.distance_to f.pos) with
            ⟨h | ⟨j', fd, hj', hfd, hact', h1, h2⟩, hle⟩
          · exact ⟨Or.inr ⟨j, f, List.mem_cons_self j nb, hj, hact, h, hd⟩,
              le_of_lt (lt_of_le_of_lt hle hd)⟩
          · exact ⟨Or.inr ⟨j', fd, List.mem_cons_of_mem j hj', hfd, hact', h1,
              lt_trans h2 hd⟩, le_of_lt (lt_of_le_of_lt hle hd)⟩
        · rw [if_neg hd]
          rcases ih acc with ⟨h | ⟨j', fd, hj', hfd, hact', h1, h2⟩, hle⟩
          · exact ⟨Or.inl h, hle⟩
          · exact ⟨Or.inr ⟨j', fd, List.mem_cons_of_mem j hj', hfd, hact', h1,
              h2⟩, hle⟩
      · rw [if_neg hact]
        rcases ih acc with ⟨h | ⟨j', fd, hj', hfd, hact', h1, h2⟩, hle⟩
        · exact ⟨Or.inl h, hle⟩
        · exact ⟨Or.inr ⟨j', fd, List.mem_cons_of_mem j hj', hfd, hact', h1,
            h2⟩, hle⟩

/-- A food target chosen by the foraging loop really is the listed food
behind that index, and it is active (the loop skips `not f.active`). -/
theorem foodScan_some {pos : Vec2} {sense : ℝ} {foods : List Food}
    {nb : List ℕ} {j : ℕ} {fd : Food}
    (h : (foodScan pos sense foods nb).1 = some (j, fd)) :
    foods[j]? = some fd ∧ fd.active = true ∧ j ∈ nb ∧
      (foodScan pos sense foods nb).2 = pos.distance_to fd.pos ∧
      pos.distance_to fd.pos < sense := by
  rcases (foodScan_foldl_cases pos foods nb (none, sense)).1 with
    hc | ⟨j', fd', hj', hfd, hact, h1, h2⟩
  · unfold foodScan at h
    rw [hc] at h
    simp at h
  · unfold foodScan at h
    rw [h1] at h
    simp only [Option.some.injEq, Prod.mk.injEq] at h
    obtain ⟨rfl, rfl⟩ := h
    exact ⟨hfd, hact, hj', by unfold foodScan; rw [h1], h2⟩

theorem preyScan_foldl_cases (pos : Vec2) (prey : List AgentState)
    (nb : List ℕ) (acc : Option (ℕ × AgentState) × ℝ) :
    ((nb.foldl
        (fun acc j =>
          match prey[j]? with
          | none => acc
          | some p =>
            if p.active then
              let d := pos.distance_to p.pos
              if d < acc.2 then (some (j, p), d) else acc
            else acc) acc) = acc ∨
      ∃ j pq, j ∈ nb ∧ prey[j]? = some pq ∧ pq.active = true ∧
        (nb.foldl
            (fun acc j =>
              match prey[j]? with
              | none => acc
              | some p =>
                if p.active then
                  let d := pos.distance_to p.pos
                  if d < acc.2 then (some (j, p), d) else acc
                else acc) acc) = (some (j, pq), pos.distance_to pq.pos) ∧
        pos.distance_to pq.pos < acc.2) ∧
      (nb.foldl
          (fun acc j =>
            match prey[j]? with
            | none => acc
            | some p =>
              if p.active then
                let d := pos.distance_to p.pos
                if d < acc.2 then (some (j, p), d) else acc
              else acc) acc).2 ≤ acc.2 := by
  induction nb generalizing acc with
  | nil => exact ⟨Or.inl rfl, le_refl _⟩
  | cons j nb ih =>
    simp only [List.foldl_cons]
    cases hj : prey[j]? with
    | none =>
      dsimp only
      rcases ih acc with ⟨h | ⟨j', pq, hj', hpq, hact, h1, h2⟩, hle⟩
      · exact ⟨Or.inl h, hle⟩
      · exact ⟨Or.inr ⟨j', pq, List.mem_cons_of_mem j hj', hpq, hact, h1, h2⟩, hle⟩
    | some p =>
      dsimp only
      by_cases hact : p.active
      · rw [if_pos hact]
        by_cases hd : pos.distance_to p.pos < acc.2
        · rw [if_pos hd]
          rcases ih (some (j, p), pos.distance_to p.pos) with
            ⟨h | ⟨j', pq, hj', hpq, hact', h1, h2⟩, hle⟩
          · exact ⟨Or.inr ⟨j, p, List.mem_cons_self j nb, hj, hact, h, hd⟩,
              le_of_lt (lt_of_le_of_lt hle hd)⟩
          · exact ⟨Or.inr ⟨j', pq, List.mem_cons_of_mem j hj', hpq, hact', h1,
              lt_trans h2 hd⟩, le_of_lt (lt_of_le_of_lt hle hd)⟩
        · rw [if_neg hd]
          rcases ih acc with ⟨h | ⟨j', pq, hj', hpq, hact', h1, h2⟩, hle⟩
          · exact ⟨Or.inl h, hle⟩
          · exact ⟨Or.inr ⟨j', pq, List.mem_cons_of_mem j hj', hpq, hact', h1,
              h2⟩, hle⟩
      · rw [if_neg hact]
        rcases ih acc with ⟨h | ⟨j', pq, hj', hpq, hact', h1, h2⟩, hle⟩
        · exact ⟨Or.inl h, hle⟩
        · exact ⟨Or.inr ⟨j', pq, List.mem_cons_of_mem j hj', hpq, hact', h1,
            h2⟩, hle⟩

/-- A prey target chosen by the hunting loop is the listed prey behind
that index, and it is active (the loop skips `not p.active`). -/
theorem preyScan_some {pos : Vec2} {sense : ℝ} {prey : List AgentState}
    {nb : List ℕ} {j : ℕ} {pq : AgentState}
    (h : (preyScan pos sense prey nb).1 = some (j, pq)) :
    prey[j]? = some pq ∧ pq.active = true ∧ j ∈ nb ∧
      (preyScan pos sense prey nb).2 = pos.distance_to pq.pos ∧
      pos.distance_to pq.pos < sense := by
  rcases (preyScan_foldl_cases pos prey nb (none, sense)).1 with
    hc | ⟨j', pq', hj', hpq, hact, h1, h2⟩
  · unfold preyScan at h
    rw [hc] at h
    simp at h
  · unfold preyScan at h
    rw [h1] at h
    simp only [Option.some.injEq, Prod.mk.injEq] at h
    obtain ⟨rfl, rfl⟩ := h
    exact ⟨hpq, hact, hj', by unfold preyScan; rw [h1], h2⟩

/-! ## Case analysis of `Prey.update` and `Predator.update` -/

theorem Prey.update_flee {a : AgentState} {foods : List Food}
    {gF : SpatialGrid ℕ} {gP : SpatialGrid AgentState} {u : ℝ}
    {pp : AgentState}
    (h : (predScan a.pos a.dna.sense (gP.get_nearby a.pos 1)).1 = some pp) :
    Prey.update a foods gF gP u =
      (AgentState.update_physics
        { a with
          energy := a.energy - (PREY_METABOLISM + a.vel.lengthSq * 0.01)
          wander_theta := (preyWander a (AgentState.steer a pp.pos (-5)) u).2
          acc := a.acc + (preyWander a (AgentState.steer a pp.pos (-5)) u).1 },
        foods) := by
  simp only [Prey.update]
  rw [h]

theorem Prey.update_full {a : AgentState} {foods : List Food}
    {gF : SpatialGrid ℕ} {gP : SpatialGrid AgentState} {u : ℝ}
    (h : (predScan a.pos a.dna.sense (gP.get_nearby a.pos 1)).1 = none)
    (hfull : ¬ a.energy - (PREY_METABOLISM + a.vel.lengthSq * 0.01) <
      a.max_energy) :
    Prey.update a foods gF gP u =
      (AgentState.update_physics
        { a with
          energy := a.energy - (PREY_METABOLISM + a.vel.lengthSq * 0.01)
          wander_theta := (preyWander a ⟨0, 0⟩ u).2
          acc := a.acc + (preyWander a ⟨0, 0⟩ u).1 },
        foods) := by
  simp only [Prey.update]
  rw [h]
  dsimp only
  rw [if_neg hfull]

theorem Prey.update_nofood {a : AgentState} {foods : List Food}
    {gF : SpatialGrid ℕ} {gP : SpatialGrid AgentState} {u : ℝ} {m : ℝ}
    (h : (predScan a.pos a.dna.sense (gP.get_nearby a.pos 1)).1 = none)
    (hfull : a.energy - (PREY_METABOLISM + a.vel.lengthSq * 0.01) <
      a.max_energy)
    (hfs : foodScan a.pos a.dna.sense foods (gF.get_nearby a.pos 1) =
      (none, m)) :
    Prey.update a foods gF gP u =
      (AgentState.update_physics
        { a with
          energy := a.energy - (PREY_METABOLISM + a.vel.lengthSq * 0.01)
          wander_theta := (preyWander a ⟨0, 0⟩ u).2
          acc := a.acc + (preyWander a ⟨0, 0⟩ u).1 },
        foods) := by
  simp only [Prey.update]
  rw [h]
  dsimp only
  rw [if_pos hfull, hfs]

theorem Prey.update_forage_far {a : AgentState} {foods : List Food}
    {gF : SpatialGrid ℕ} {gP : SpatialGrid AgentState} {u : ℝ}
    {j : ℕ} {fd : Food} {dm : ℝ}
    (h : (predScan a.pos a.dna.sense (gP.get_nearby a.pos 1)).1 = none)
    (hfull : a.energy - (PREY_METABOLISM + a.vel.lengthSq * 0.01) <
      a.max_energy)
    (hfs : foodScan a.pos a.dna.sense foods (gF.get_nearby a.pos 1) =
      (some (j, fd), dm))
    (hfar : ¬ dm < 10) :
    Prey.update a foods gF gP u =
      (AgentState.update_physics
        { a with
          energy := a.energy - (PREY_METABOLISM + a.vel.lengthSq * 0.01)
          wander_theta := (preyWander a (AgentState.steer a fd.pos 1.5) u).2
          acc := a.acc + (preyWander a (AgentState.steer a fd.pos 1.5) u).1 },
        foods) := by
  simp only [Prey.update]
  rw [h]
  dsimp only
  rw [if_pos hfull, hfs]
  dsimp only
  rw [if_neg hfar]

theorem Prey.update_forage_eat {a : AgentState} {foods : List Food}
    {gF : SpatialGrid ℕ} {gP : SpatialGrid AgentState} {u : ℝ}
    {j : ℕ} {fd : Food} {dm : ℝ}
    (h : (predScan a.pos a.dna.sense (gP.get_nearby a.pos 1)).1 = none)
    (hfull : a.energy - (PREY_METABOLISM + a.vel.lengthSq * 0.01) <
      a.max_energy)
    (hfs : foodScan a.pos a.dna.sense foods (gF.get_nearby a.pos 1) =
      (some (j, fd), dm))
    (hnear : dm < 10) :
    Prey.update a foods gF gP u =
      (AgentState.update_physics
        { a with
          energy := a.energy - (PREY_METABOLISM + a.vel.lengthSq * 0.01) + 50
          wander_theta := (preyWander a (AgentState.steer a fd.pos 1.5) u).2
          acc := a.acc + (preyWander a (AgentState.steer a fd.pos 1.5) u).1 },
        foods.set j { fd with active := false }) := by
  simp only [Prey.update]
  rw [h]
  dsimp only
  rw [if_pos hfull, hfs]
  dsimp only
  rw [if_pos hnear]

theorem Predator.update_catch {a : AgentState} {prey : List AgentState}
    {gPr : SpatialGrid ℕ} {u : ℝ} {j : ℕ} {pq : AgentState} {dm : ℝ}
    (hfs : preyScan a.pos a.dna.sense prey (gPr.get_nearby a.pos 2) =
      (some (j, pq), dm))
    (hnear : dm < 12) :
    Predator.update a prey gPr u =
      (AgentState.update_physics
        { a with
          energy := a.energy - (PRED_METABOLISM + a.vel.lengthSq * 0.01) + 120
          acc := a.acc + AgentState.steer a pq.pos 1.2 },
        prey.set j { pq with active := false }) := by
  simp only [Predator.update]
  rw [hfs]
  dsimp only
  rw [if_pos hnear]

theorem Predator.update_chase {a : AgentState} {prey : List AgentState}
    {gPr : SpatialGrid ℕ} {u : ℝ} {j : ℕ} {pq : AgentState} {dm : ℝ}
    (hfs : preyScan a.pos a.dna.sense prey (gPr.get_nearby a.pos 2) =
      (some (j, pq), dm))
    (hfar : ¬ dm < 12) :
    Predator.update a prey gPr u =
      (AgentState.update_physics
        { a with
          energy := a.energy - (PRED_METABOLISM + a.vel.lengthSq * 0.01)
          acc := a.acc + AgentState.steer a pq.pos 1.2 },
        prey) := by
  simp only [Predator.update]
  rw [hfs]
  dsimp only
  rw [if_neg hfar]

theorem Predator.update_patrol {a : AgentState} {prey : List AgentState}
    {gPr : SpatialGrid ℕ} {u : ℝ} {m : ℝ}
    (hfs : preyScan a.pos a.dna.sense prey (gPr.get_nearby a.pos 2) =
      (none, m)) :
    Predator.update a prey gPr u =
      (AgentState.update_physics
        { a with
          energy := a.energy - (PRED_METABOLISM + a.vel.lengthSq * 0.01)
          wander_theta := a.wander_theta + u
          acc := a.acc +
            (0.5 : ℝ) * Vec2.mk (Real.cos (a.wander_theta + u))
              (Real.sin (a.wander_theta + u)) },
        prey) := by
  simp only [Predator.update]
  rw [hfs]

/-- Exhaustive characterisation of one prey update in terms of the ghost
`Prey.consumedIdx`: the food list changes exactly by the consumed index,
the energy changes by metabolism plus 50 iff a food was consumed, and a
consumption can only happen with no predator in range and energy below
the cap. -/
theorem prey_update_cases (a : AgentState) (foods : List Food)
    (gF : SpatialGrid ℕ) (gP : SpatialGrid AgentState) (u : ℝ) :
    (Prey.update a foods gF gP u).2 =
      (match Prey.consumedIdx a foods gF gP with
        | some j => deactivateFoodAt foods j
        | none => foods) ∧
    (Prey.update a foods gF gP u).1.energy =
      a.energy - (PREY_METABOLISM + a.vel.lengthSq * 0.01) +
        (if (Prey.consumedIdx a foods gF gP).isSome then 50 else 0) ∧
    ((Prey.consumedIdx a foods gF gP).isSome →
      (predScan a.pos a.dna.sense (gP.get_nearby a.pos 1)).1 = none ∧
        a.energy - (PREY_METABOLISM + a.vel.lengthSq * 0.01) < a.max_energy) := by
  cases hps : (predScan a.pos a.dna.sense (gP.get_nearby a.pos 1)).1 with
  | some pp =>
    have hci : Prey.consumedIdx a foods gF gP = none := by
      simp only [Prey.consumedIdx]
      rw [hps]
    rw [Prey.update_flee hps, hci]
    exact ⟨rfl, by simp [AgentState.update_physics_energy], by simp⟩
  | none =>
    by_cases hfull : a.energy - (PREY_METABOLISM + a.vel.lengthSq * 0.01) <
        a.max_energy
    · rcases hfs : foodScan a.pos a.dna.sense foods (gF.get_nearby a.pos 1)
        with ⟨fs1, fs2⟩
      cases fs1 with
      | none =>
        have hci : Prey.consumedIdx a foods gF gP = none := by
          simp only [Prey.consumedIdx]
          rw [hps]
          dsimp only
          rw [if_pos hfull, hfs]
        rw [Prey.update_nofood hps hfull hfs, hci]
        exact ⟨rfl, by simp [AgentState.update_physics_energy], by simp⟩
      | some jf =>
        obtain ⟨j, fd⟩ := jf
        by_cases hnear : fs2 < 10
        · have hci : Prey.consumedIdx a foods gF gP = some j := by
            simp only [Prey.consumedIdx]
            rw [hps]
            dsimp only
            rw [if_pos hfull, hfs]
            dsimp only
            rw [if_pos hnear]
          have hfd : foods[j]? = some fd :=
            (foodScan_some (by rw [hfs])).1
          rw [Prey.update_forage_eat hps hfull hfs hnear, hci]
          refine ⟨?_, by simp [AgentState.update_physics_energy], ?_⟩
          · dsimp only
            unfold deactivateFoodAt
            rw [hfd]
          · intro
            exact ⟨rfl, hfull⟩
        · have hci : Prey.consumedIdx a foods gF gP = none := by
            simp only [Prey.consumedIdx]
            rw [hps]
            dsimp only
            rw [if_pos hfull, hfs]
            dsimp only
            rw [if_neg hnear]
          rw [Prey.update_forage_far hps hfull hfs hnear, hci]
          exact ⟨rfl, by simp [AgentState.update_physics_energy], by simp⟩
    · have hci : Prey.consumedIdx a foods gF gP = none := by
        simp only [Prey.consumedIdx]
        rw [hps]
        dsimp only
        rw [if_neg hfull]
      rw [Prey.update_full hps hfull, hci]
      exact ⟨rfl, by simp [AgentState.update_physics_energy], by simp⟩

/-- Exhaustive characterisation of one predator update.  Note there is no
`max_energy` condition anywhere: the 120-unit feeding reward is uncapped. -/
theorem pred_update_cases (a : AgentState) (prey : List AgentState)
    (gPr : SpatialGrid ℕ) (u : ℝ) :
    (Predator.update a prey gPr u).2 =
      (match Predator.consumedIdx a prey gPr with
        | some j => deactivateAgentAt prey j
        | none => prey) ∧
    (Predator.update a prey gPr u).1.energy =
      a.energy - (PRED_METABOLISM + a.vel.lengthSq * 0.01) +
        (if (Predator.consumedIdx a prey gPr).isSome then 120 else 0) := by
  rcases hfs : preyScan a.pos a.dna.sense prey (gPr.get_nearby a.pos 2)
    with ⟨fs1, fs2⟩
  cases fs1 with
  | none =>
    have hci : Predator.consumedIdx a prey gPr = none := by
      simp only [Predator.consumedIdx]
      rw [hfs]
    rw [Predator.update_patrol hfs, hci]
    exact ⟨rfl, by simp [AgentState.update_physics_energy]⟩
  | some jp =>
    obtain ⟨j, pq⟩ := jp
    by_cases hnear : fs2 < 12
    · have hci : Predator.consumedIdx a prey gPr = some j := by
        simp only [Predator.consumedIdx]
        rw [hfs]
        dsimp only
        rw [if_pos hnear]
      have hpq : prey[j]? = some pq :=
        (preyScan_some (by rw [hfs])).1
      rw [Predator.update_catch hfs hnear, hci]
      refine ⟨?_, by simp [AgentState.update_physics_energy]⟩
      dsimp only
      unfold deactivateAgentAt
      rw [hpq]
    · have hci : Predator.consumedIdx a prey gPr = none := by
        simp only [Predator.consumedIdx]
        rw [hfs]
        dsimp only
        rw [if_neg hnear]
      rw [Predator.update_chase hfs hnear, hci]
      exact ⟨rfl, by simp [AgentState.update_physics_energy]⟩

/-- A consumed food index points at a food that was active at that
moment. -/
theorem preyConsumedIdx_active {a : AgentState} {foods : List Food}
    {gF : SpatialGrid ℕ} {gP : SpatialGrid AgentState} {j : ℕ}
    (h : Prey.consumedIdx a foods gF gP = some j) :
    ∃ fd, foods[j]? = some fd ∧ fd.active = true := by
  unfold Prey.consumedIdx at h
  cases hps : (predScan a.pos a.dna.sense (gP.get_nearby a.pos 1)).1 with
  | some pp =>
    rw [hps] at h
    cases h
  | none =>
    rw [hps] at h
    dsimp only at h
    by_cases hfull : a.energy - (PREY_METABOLISM + a.vel.lengthSq * 0.01) <
        a.max_energy
    · rw [if_pos hfull] at h
      rcases hfs : foodScan a.pos a.dna.sense foods (gF.get_nearby a.pos 1)
        with ⟨fs1, fs2⟩
      rw [hfs] at h
      cases fs1 with
      | none => cases h
      | some jf =>
        obtain ⟨j', fd⟩ := jf
        dsimp only at h
        by_cases hnear : fs2 < 10
        · rw [if_pos hnear] at h
          have hj : j' = j := by
            injection h
          obtain ⟨h1, h2, _⟩ := foodScan_some (show
            (foodScan a.pos a.dna.sense foods (gF.get_nearby a.pos 1)).1 =
              some (j', fd) by rw [hfs])
          exact ⟨fd, hj ▸ h1, h2⟩
        · rw [if_neg hnear] at h
          cases h
    · rw [if_neg hfull] at h
      cases h

/-- A caught prey index points at a prey that was active at that moment. -/
theorem predConsumedIdx_active {a : AgentState}
    {prey : List AgentState} {gPr : SpatialGrid ℕ} {j : ℕ}
    (h : Predator.consumedIdx a prey gPr = some j) :
    ∃ pq, prey[j]? = some pq ∧ pq.active = true := by
  unfold Predator.consumedIdx at h
  rcases hfs : preyScan a.pos a.dna.sense prey (gPr.get_nearby a.pos 2)
    with ⟨fs1, fs2⟩
  rw [hfs] at h
  cases fs1 with
  | none => cases h
  | some jp =>
    obtain ⟨j', pq⟩ := jp
    dsimp only at h
    by_cases hnear : fs2 < 12
    · rw [if_pos hnear] at h
      have hj : j' = j := by
        injection h
      obtain ⟨h1, h2, _⟩ := preyScan_some (show
        (preyScan a.pos a.dna.sense prey (gPr.get_nearby a.pos 2)).1 =
          some (j', pq) by rw [hfs])
      exact ⟨pq, hj ▸ h1, h2⟩
    · rw [if_neg hnear] at h
      cases h

theorem deactivateFoodAt_getElem_ne (foods : List Food) {j k : ℕ}
    (h : j ≠ k) : (deactivateFoodAt foods j)[k]? = foods[k]? := by
  unfold deactivateFoodAt
  cases hj : foods[j]? with
  | none => rfl
  | some fd => exact List.getElem?_set_ne h

theorem deactivateFoodAt_getElem_self {foods : List Food} {j : ℕ} {fd : Food}
    (h : foods[j]? = some fd) :
    (deactivateFoodAt foods j)[j]? = some { fd with active := false } := by
  unfold deactivateFoodAt
  rw [h, List.getElem?_set_self', h]
  rfl

theorem deactivateAgentAt_getElem_ne (l : List AgentState) {j k : ℕ}
    (h : j ≠ k) : (deactivateAgentAt l j)[k]? = l[k]? := by
  unfold deactivateAgentAt
  cases hj : l[j]? with
  | none => rfl
  | some p => exact List.getElem?_set_ne h

theorem deactivateAgentAt_getElem_self {l : List AgentState} {j : ℕ}
    {p : AgentState} (h : l[j]? = some p) :
    (deactivateAgentAt l j)[j]? = some { p with active := false } := by
  unfold deactivateAgentAt
  rw [h, List.getElem?_set_self', h]
  rfl

/-- Any index in the consumed trace of a prey pass was active in the food
list the pass started from. -/
theorem mem_preyPassConsumed_active {gF : SpatialGrid ℕ}
    {gP : SpatialGrid AgentState} {l : List AgentState} {foods : List Food}
    {j : ℕ} (h : j ∈ preyPassConsumed gF gP l foods) :
    ∃ fd, foods[j]? = some fd ∧ fd.active = true := by
  induction l generalizing foods with
  | nil =>
    simp only [preyPassConsumed] at h
    cases h
  | cons p l ih =>
    simp only [preyPassConsumed] at h
    cases hci : Prey.consumedIdx p foods gF gP with
    | some k =>
      rw [hci] at h
      rcases List.mem_cons.1 h with rfl | hmem
      · exact preyConsumedIdx_active hci
      · obtain ⟨fd', hfd', hact'⟩ := ih hmem
        by_cases hjk : k = j
        · subst hjk
          obtain ⟨fd, hfd, _⟩ := preyConsumedIdx_active hci
          rw [deactivateFoodAt_getElem_self hfd] at hfd'
          cases hfd'
          cases hact'
        · rw [deactivateFoodAt_getElem_ne foods hjk] at hfd'
          exact ⟨fd', hfd', hact'⟩
    | none =>
      rw [hci] at h
      exact ih h

theorem mem_predPassConsumed_active {gPr : SpatialGrid ℕ}
    {l : List AgentState} {prey : List AgentState} {j : ℕ}
    (h : j ∈ predPassConsumed gPr l prey) :
    ∃ pq, prey[j]? = some pq ∧ pq.active = true := by
  induction l generalizing prey with
  | nil =>
    simp only [predPassConsumed] at h
    cases h
  | cons p l ih =>
    simp only [predPassConsumed] at h
    cases hci : Predator.consumedIdx p prey gPr with
    | some k =>
      rw [hci] at h
      rcases List.mem_cons.1 h with rfl | hmem
      · exact predConsumedIdx_active hci
      · obtain ⟨pq', hpq', hact'⟩ := ih hmem
        by_cases hjk : k = j
        · subst hjk
          obtain ⟨pq, hpq, _⟩ := predConsumedIdx_active hci
          rw [deactivateAgentAt_getElem_self hpq] at hpq'
          cases hpq'
          cases hact'
        · rw [deactivateAgentAt_getElem_ne prey hjk] at hpq'
          exact ⟨pq', hpq', hact'⟩
    | none =>
      rw [hci] at h
      exact ih h

/-- No food index is consumed twice within one prey pass. -/
theorem preyPassConsumed_nodup (gF : SpatialGrid ℕ)
    (gP : SpatialGrid AgentState) (l : List AgentState) (foods : List Food) :
    (preyPassConsumed gF gP l foods).Nodup := by
  induction l generalizing foods with
  | nil =>
    simp [preyPassConsumed]
  | cons p l ih =>
    simp only [preyPassConsumed]
    cases hci : Prey.consumedIdx p foods gF gP with
    | none => exact ih foods
    | some k =>
      refine List.nodup_cons.2 ⟨?_, ih _⟩
      intro hmem
      obtain ⟨fd', hfd', hact'⟩ := mem_preyPassConsumed_active hmem
      obtain ⟨fd, hfd, _⟩ := preyConsumedIdx_active hci
      rw [deactivateFoodAt_getElem_self hfd] at hfd'
      cases hfd'
      cases hact'

/-- No prey index is caught twice within one predator pass. -/
theorem predPassConsumed_nodup (gPr : SpatialGrid ℕ)
    (l : List AgentState) (prey : List AgentState) :
    (predPassConsumed gPr l prey).Nodup := by
  induction l generalizing prey with
  | nil =>
    simp [predPassConsumed]
  | cons p l ih =>
    simp only [predPassConsumed]
    cases hci : Predator.consumedIdx p prey gPr with
    | none => exact ih prey
    | some k =>
      refine List.nodup_cons.2 ⟨?_, ih _⟩
      intro hmem
      obtain ⟨pq', hpq', hact'⟩ := mem_predPassConsumed_active hmem
      obtain ⟨pq, hpq, _⟩ := predConsumedIdx_active hci
      rw [deactivateAgentAt_getElem_self hpq] at hpq'
      cases hpq'
      cases hact'

/-! ## Factorisation of the passes: update phase, then reproduction -/

/-- The prey loop factors as: run all updates (threading the food list),
then apply the reproduction deduction to each updated parent and collect
one offspring per parent whose post-update energy exceeds the threshold.
Offspring live in a separate list, so none is updated or reproduces
within the same pass. -/
theorem preyPassAux_eq (gF : SpatialGrid ℕ) (gP : SpatialGrid AgentState)
    (R : ℕ → AgentRnd) :
    ∀ (i : ℕ) (l : List AgentState) (foods : List Food),
    preyPassAux gF gP R i l foods =
      ((preyUpdPhase gF gP R i l foods).1.map reproParentPrey,
       (preyUpdPhase gF gP R i l foods).2,
       ((preyUpdPhase gF gP R i l foods).1.enumFrom i).filterMap
         (reproChildPrey R)) := by
  intro i l
  induction l generalizing i with
  | nil => intro foods; rfl
  | cons p rest ih =>
    intro foods
    simp only [preyPassAux, preyUpdPhase, List.map_cons, List.enumFrom,
      List.filterMap_cons]
    rw [ih]
    by_cases hrep : (Prey.update p foods gF gP (R i).u).1.energy >
        REPRO_COST_PREY + 50
    · rw [if_pos hrep]
      have h1 : reproParentPrey (Prey.update p foods gF gP (R i).u).1 =
          { (Prey.update p foods gF gP (R i).u).1 with
            energy := (Prey.update p foods gF gP (R i).u).1.energy -
              REPRO_COST_PREY } := by
        unfold reproParentPrey
        rw [if_pos hrep]
      have h2 : reproChildPrey R (i, (Prey.update p foods gF gP (R i).u).1) =
          some (mkPrey (Prey.update p foods gF gP (R i).u).1.pos
            (mutateDNA (Prey.update p foods gF gP (R i).u).1.dna
              (R i).f1 (R i).f2 (R i).f3)
            (R i).childVel (R i).childTheta) := by
        unfold reproChildPrey
        rw [if_pos hrep]
      rw [h1, h2]
      rfl
    · rw [if_neg hrep]
      have h1 : reproParentPrey (Prey.update p foods gF gP (R i).u).1 =
          (Prey.update p foods gF gP (R i).u).1 := by
        unfold reproParentPrey
        rw [if_neg hrep]
      have h2 : reproChildPrey R (i, (Prey.update p foods gF gP (R i).u).1) =
          none := by
        unfold reproChildPrey
        rw [if_neg hrep]
      rw [h1, h2]
      rfl

/-- The predator loop factors the same way, with `REPRO_COST_PRED`. -/
theorem predPassAux_eq (gPr : SpatialGrid ℕ) (R : ℕ → AgentRnd) :
    ∀ (i : ℕ) (l : List AgentState) (prey : List AgentState),
    predPassAux gPr R i l prey =
      ((predUpdPhase gPr R i l prey).1.map reproParentPred,
       (predUpdPhase gPr R i l prey).2,
       ((predUpdPhase gPr R i l prey).1.enumFrom i).filterMap
         (reproChildPred R)) := by
  intro i l
  induction l generalizing i with
  | nil => intro prey; rfl
  | cons p rest ih =>
    intro prey
    simp only [predPassAux, predUpdPhase, List.map_cons, List.enumFrom,
      List.filterMap_cons]
    rw [ih]
    by_cases hrep : (Predator.update p prey gPr (R i).u).1.energy >
        REPRO_COST_PRED + 50
    · rw [if_pos hrep]
      have h1 : reproParentPred (Predator.update p prey gPr (R i).u).1 =
          { (Predator.update p prey gPr (R i).u).1 with
            energy := (Predator.update p prey gPr (R i).u).1.energy -
              REPRO_COST_PRED } := by
        unfold reproParentPred
        rw [if_pos hrep]
      have h2 : reproChildPred R (i, (Predator.update p prey gPr (R i).u).1) =
          some (mkPredator (Predator.update p prey gPr (R i).u).1.pos
            (mutateDNA (Predator.update p prey gPr (R i).u).1.dna
              (R i).f1 (R i).f2 (R i).f3)
            (R i).childVel (R i).childTheta) := by
        unfold reproChildPred
        rw [if_pos hrep]
      rw [h1, h2]
      rfl
    · rw [if_neg hrep]
      have h1 : reproParentPred (Predator.update p prey gPr (R i).u).1 =
          (Predator.update p prey gPr (R i).u).1 := by
        unfold reproParentPred
        rw [if_neg hrep]
      have h2 : reproChildPred R (i, (Predator.update p prey gPr (R i).u).1) =
          none := by
        unfold reproChildPred
        rw [if_neg hrep]
      rw [h1, h2]
      rfl

theorem preyUpdPhase_length (gF : SpatialGrid ℕ) (gP : SpatialGrid AgentState)
    (R : ℕ → AgentRnd) :
    ∀ (i : ℕ) (l : List AgentState) (foods : List Food),
    (preyUpdPhase gF gP R i l foods).1.length = l.length := by
  intro i l
  induction l generalizing i with
  | nil => intro foods; rfl
  | cons p rest ih =>
    intro foods
    simp only [preyUpdPhase, List.length_cons]
    rw [ih]

theorem predUpdPhase_length (gPr : SpatialGrid ℕ) (R : ℕ → AgentRnd) :
    ∀ (i : ℕ) (l : List AgentState) (prey : List AgentState),
    (predUpdPhase gPr R i l prey).1.length = l.length := by
  intro i l
  induction l generalizing i with
  | nil => intro prey; rfl
  | cons p rest ih =>
    intro prey
    simp only [predUpdPhase, List.length_cons]
    rw [ih]

/-! ## Claim theorems -/

/-- C3 (amended): after `update_physics()` every coordinate lies in the
CLOSED interval `[0, WORLD_W]` (resp. `[0, WORLD_H]`) — the right end is
attainable, so the claimed strict bound `x < WORLD_W` fails; crossing the
high edge of an axis resets that coordinate to `0`, but crossing the low
edge resets it to `WORLD_W`/`WORLD_H` (the far border), not to zero. -/
theorem C3_toroidal_wrap (a : AgentState) :
    (0 ≤ (AgentState.update_physics a).pos.x ∧
      (AgentState.update_physics a).pos.x ≤ WORLD_W ∧
      0 ≤ (AgentState.update_physics a).pos.y ∧
      (AgentState.update_physics a).pos.y ≤ WORLD_H) ∧
    (a.pos.x > WORLD_W → (AgentState.edges a).pos.x = 0) ∧
    (a.pos.x < 0 → (AgentState.edges a).pos.x = WORLD_W) ∧
    (a.pos.y > WORLD_H → (AgentState.edges a).pos.y = 0) ∧
    (a.pos.y < 0 → (AgentState.edges a).pos.y = WORLD_H) := by
  refine ⟨AgentState.update_physics_mem a, ?_, ?_, ?_, ?_⟩
  · intro h
    unfold AgentState.edges
    dsimp only
    rw [if_pos h]
    rw [if_neg (by norm_num)]
  · intro h
    unfold AgentState.edges
    dsimp only
    have hinner : (if a.pos.x > WORLD_W then (0 : ℝ) else a.pos.x) = a.pos.x :=
      if_neg (by unfold WORLD_W; intro hgt; linarith)
    rw [hinner, if_pos h]
  · intro h
    unfold AgentState.edges
    dsimp only
    rw [if_pos h]
    rw [if_neg (by norm_num)]
  · intro h
    unfold AgentState.edges
    dsimp only
    have hinner : (if a.pos.y > WORLD_H then (0 : ℝ) else a.pos.y) = a.pos.y :=
      if_neg (by unfold WORLD_H; intro hgt; linarith)
    rw [hinner, if_pos h]

/-- C3 witness: an agent that crossed the low x edge is reset to the far
border `WORLD_W`. -/
theorem C3_witness :
    (AgentState.edges
      (AgentState.mk ⟨-1, 5⟩ ⟨0, 0⟩ ⟨0, 0⟩ preyDefaultDNA 150 400 true 0)).pos.x =
      WORLD_W :=
  (C3_toroidal_wrap
    (AgentState.mk ⟨-1, 5⟩ ⟨0, 0⟩ ⟨0, 0⟩ preyDefaultDNA 150 400 true 0)).2.2.1
    (by norm_num)

/-- C3 counterexample: an agent at `(0, 5)` moving with velocity
`(-1, 0)` ends `update_physics()` at `x = WORLD_W`, violating the claimed
invariant `x < WORLD_W`; and having crossed the low edge it reappears at
`WORLD_W`, not at zero. -/
theorem C3_counterexample :
    (AgentState.update_physics agentC3).pos.x = WORLD_W ∧
      ¬ (AgentState.update_physics agentC3).pos.x < WORLD_W ∧
      (AgentState.update_physics agentC3).pos.x ≠ 0 := by
  have hcond : ¬ (agentC3.vel + agentC3.acc).len > agentC3.dna.speed := by
    apply not_lt.2
    rw [Vec2.len_le_iff _ (by norm_num [agentC3, preyDefaultDNA])]
    simp only [Vec2.lengthSq, Vec2.add_x, Vec2.add_y, agentC3, preyDefaultDNA]
    norm_num
  have h1 : AgentState.update_physics agentC3 =
      AgentState.edges
        { agentC3 with
          vel := agentC3.vel + agentC3.acc
          pos := agentC3.pos + (agentC3.vel + agentC3.acc)
          acc := ⟨0, 0⟩ } := by
    simp only [AgentState.update_physics]
    rw [if_neg hcond]
  have hx : (agentC3.pos + (agentC3.vel + agentC3.acc)).x = -1 := by
    simp only [Vec2.add_x, agentC3]
    norm_num
  have h2 : (AgentState.update_physics agentC3).pos.x = WORLD_W := by
    rw [h1]
    unfold AgentState.edges
    dsimp only
    rw [hx]
    have hinner : (if (-1 : ℝ) > WORLD_W then (0 : ℝ) else -1) = -1 :=
      if_neg (by unfold WORLD_W; norm_num)
    rw [hinner]
    rw [if_pos (by norm_num : (-1 : ℝ) < 0)]
  refine ⟨h2, ?_, ?_⟩
  · rw [h2]
    exact lt_irrefl _
  · rw [h2]
    unfold WORLD_W
    norm_num

/-- C7: after `update_physics()` the velocity magnitude is at most the
(nonnegative) genome `speed`, and the acceleration accumulator has been
reset to zero. -/
theorem C7_speed_clamp (a : AgentState) (h : 0 ≤ a.dna.speed) :
    (AgentState.update_physics a).vel.len ≤ a.dna.speed ∧
      (AgentState.update_physics a).acc = Vec2.mk 0 0 :=
  ⟨AgentState.update_physics_speed_clamp a h, AgentState.update_physics_acc a⟩

theorem C7_witness :
    (AgentState.update_physics agentC3).vel.len ≤ agentC3.dna.speed ∧
      (AgentState.update_physics agentC3).acc = Vec2.mk 0 0 :=
  C7_speed_clamp agentC3 (by norm_num [agentC3, preyDefaultDNA])

/-- C8: a child genome shares the parent's trait fields; with all parent
values positive and each factor drawn in `[0.9, 1.1]`, every child value
lies within ±10% of the parent's and stays strictly positive. -/
theorem C8_mutation_bounds (d : DNA) (f1 f2 f3 : ℝ)
    (hd : 0 < d.speed ∧ 0 < d.force ∧ 0 < d.sense)
    (h1 : 0.9 ≤ f1 ∧ f1 ≤ 1.1) (h2 : 0.9 ≤ f2 ∧ f2 ≤ 1.1)
    (h3 : 0.9 ≤ f3 ∧ f3 ≤ 1.1) :
    (0.9 * d.speed ≤ (mutateDNA d f1 f2 f3).speed ∧
      (mutateDNA d f1 f2 f3).speed ≤ 1.1 * d.speed ∧
      0 < (mutateDNA d f1 f2 f3).speed) ∧
    (0.9 * d.force ≤ (mutateDNA d f1 f2 f3).force ∧
      (mutateDNA d f1 f2 f3).force ≤ 1.1 * d.force ∧
      0 < (mutateDNA d f1 f2 f3).force) ∧
    (0.9 * d.sense ≤ (mutateDNA d f1 f2 f3).sense ∧
      (mutateDNA d f1 f2 f3).sense ≤ 1.1 * d.sense ∧
      0 < (mutateDNA d f1 f2 f3).sense) := by
  obtain ⟨hs, hf, hn⟩ := hd
  unfold mutateDNA
  dsimp only
  refine ⟨⟨?_, ?_, ?_⟩, ⟨?_, ?_, ?_⟩, ⟨?_, ?_, ?_⟩⟩ <;> nlinarith [h1.1, h1.2,
    h2.1, h2.2, h3.1, h3.2]

/-- Evaluate a cell index from linear bounds on the coordinates. -/
theorem cellOf_eq {p : Vec2} {m n : ℤ}
    (hx1 : (m : ℝ) * CELL_SIZE ≤ p.x) (hx2 : p.x < ((m : ℝ) + 1) * CELL_SIZE)
    (hy1 : (n : ℝ) * CELL_SIZE ≤ p.y) (hy2 : p.y < ((n : ℝ) + 1) * CELL_SIZE) :
    cellOf p = (m, n) := by
  have h120 : (0 : ℝ) < CELL_SIZE := by norm_num [CELL_SIZE]
  unfold cellOf
  simp only [Prod.mk.injEq]
  constructor
  · rw [Int.floor_eq_iff]
    constructor
    · rw [le_div_iff₀ h120]
      exact hx1
    · rw [div_lt_iff₀ h120]
      exact hx2
  · rw [Int.floor_eq_iff]
    constructor
    · rw [le_div_iff₀ h120]
      exact hy1
    · rw [div_lt_iff₀ h120]
      exact hy2

/-- Distance comparison against a positive bound, reduced to squares. -/
theorem distance_lt_iff (a b : Vec2) {m : ℝ} (hm : 0 < m) :
    a.distance_to b < m ↔ (b.sub a).lengthSq < m ^ 2 :=
  Vec2.len_lt_iff _ hm

/-- Cells of in-world positions lie in `[0, 16] × [0, 16]`. -/
theorem cellOf_inWorld_bounds {p : Vec2} (h : inWorld p) :
    0 ≤ (cellOf p).1 ∧ (cellOf p).1 ≤ 16 ∧
      0 ≤ (cellOf p).2 ∧ (cellOf p).2 ≤ 16 := by
  obtain ⟨hx1, hx2, hy1, hy2⟩ := h
  have h120 : (0 : ℝ) < CELL_SIZE := by norm_num [CELL_SIZE]
  unfold cellOf
  refine ⟨?_, ?_, ?_, ?_⟩
  · exact Int.le_floor.2
      (by push_cast; exact div_nonneg hx1 (le_of_lt h120))
  · have hlt : ⌊p.x / CELL_SIZE⌋ < 17 := by
      rw [Int.floor_lt]
      rw [div_lt_iff₀ h120]
      unfold WORLD_W at hx2
      unfold CELL_SIZE
      push_cast
      linarith
    omega
  · exact Int.le_floor.2
      (by push_cast; exact div_nonneg hy1 (le_of_lt h120))
  · have hlt : ⌊p.y / CELL_SIZE⌋ < 17 := by
      rw [Int.floor_lt]
      rw [div_lt_iff₀ h120]
      unfold WORLD_H at hy2
      unfold CELL_SIZE
      push_cast
      linarith
    omega

theorem C8_witness :
    (0.9 * preyDefaultDNA.speed ≤ (mutateDNA preyDefaultDNA 1 1 1).speed ∧
      (mutateDNA preyDefaultDNA 1 1 1).speed ≤ 1.1 * preyDefaultDNA.speed ∧
      0 < (mutateDNA preyDefaultDNA 1 1 1).speed) ∧
    (0.9 * preyDefaultDNA.force ≤ (mutateDNA preyDefaultDNA 1 1 1).force ∧
      (mutateDNA preyDefaultDNA 1 1 1).force ≤ 1.1 * preyDefaultDNA.force ∧
      0 < (mutateDNA preyDefaultDNA 1 1 1).force) ∧
    (0.9 * preyDefaultDNA.sense ≤ (mutateDNA preyDefaultDNA 1 1 1).sense ∧
      (mutateDNA preyDefaultDNA 1 1 1).sense ≤ 1.1 * preyDefaultDNA.sense ∧
      0 < (mutateDNA preyDefaultDNA 1 1 1).sense) :=
  C8_mutation_bounds preyDefaultDNA 1 1 1
    (by norm_num [preyDefaultDNA]) (by norm_num) (by norm_num) (by norm_num)

/-- C2: for a running simulation, `step` reports ecosystem collapse as an
explicit terminal mode exactly when both pruned live sets are empty (the
sole terminal condition), and in that case it performs no mutation beyond
the prune/clear that precedes the check: the result is the old state with
pruned food, empty agent lists, cleared grids and the `GAMEOVER` mode —
counters and history untouched.  `step` is a total function: collapse is
a returned status, not a thrown fault. -/
theorem C2_extinction_terminal (s : SimState) (o : Oracle)
    (hmode : s.mode = Mode.SIM) :
    ((step s o).mode = Mode.GAMEOVER ↔
      pruneAgents s.prey = [] ∧ pruneAgents s.preds = []) ∧
    (pruneAgents s.prey = [] → pruneAgents s.preds = [] →
      step s o =
        { s with
          food := pruneFood s.food
          prey := []
          preds := []
          grid_food := SpatialGrid.clear
          grid_prey := SpatialGrid.clear
          grid_preds := SpatialGrid.clear
          mode := Mode.GAMEOVER }) := by
  by_cases hc : (pruneAgents s.prey).length = 0 ∧ (pruneAgents s.preds).length = 0
  · have hpr : pruneAgents s.prey = [] := List.length_eq_zero.1 hc.1
    have hpd : pruneAgents s.preds = [] := List.length_eq_zero.1 hc.2
    have hstep : step s o =
        { s with
          food := pruneFood s.food
          prey := pruneAgents s.prey
          preds := pruneAgents s.preds
          grid_food := SpatialGrid.clear
          grid_prey := SpatialGrid.clear
          grid_preds := SpatialGrid.clear
          mode := Mode.GAMEOVER } := by
      simp only [step]
      rw [if_pos hc]
    refine ⟨?_, ?_⟩
    · constructor
      · intro
        exact ⟨hpr, hpd⟩
      · intro
        rw [hstep]
    · intro _ _
      rw [hstep, hpr, hpd]
  · have hstep_mode : (step s o).mode = s.mode := by
      simp only [step]
      rw [if_neg hc]
    refine ⟨?_, ?_⟩
    · constructor
      · intro h
        rw [hstep_mode, hmode] at h
        cases h
      · intro ⟨hpr, hpd⟩
        exact absurd ⟨by rw [hpr]; rfl, by rw [hpd]; rfl⟩ hc
    · intro hpr hpd
      exact absurd ⟨by rw [hpr]; rfl, by rw [hpd]; rfl⟩ hc

theorem C2_witness : (step stateC2 oracle0).mode = Mode.GAMEOVER :=
  ((C2_extinction_terminal stateC2 oracle0 rfl).1).mpr ⟨rfl, rfl⟩

/-- C5: inserting a list of entities with in-world positions into a
cleared grid and querying from any in-world centre with a cell radius
covering the whole world (`r ≥ 16`, since in-world cells span `0..16`)
returns exactly the inserted entities — a permutation: none missing,
none duplicated.  Moreover every query result is precisely the union of
the buckets in the `(2r+1) × (2r+1)` Chebyshev square of cells around
the centre's cell. -/
theorem C5_grid_roundtrip :
    (∀ (E : Type) (posOf : E → Vec2) (l : List E) (c : Vec2) (r : ℕ),
      (∀ e ∈ l, inWorld (posOf e)) → inWorld c → 16 ≤ r →
      List.Perm ((SpatialGrid.build posOf l).get_nearby c r) l) ∧
    (∀ (E : Type) (g : SpatialGrid E) (p : Vec2) (r : ℕ) (e : E),
      e ∈ g.get_nearby p r ↔
        ∃ q : ℤ × ℤ, |q.1 - (cellOf p).1| ≤ (r : ℤ) ∧
          |q.2 - (cellOf p).2| ≤ (r : ℤ) ∧ e ∈ g q) := by
  constructor
  · intro E posOf l c r hl hc hr
    apply SpatialGrid.get_nearby_build_perm
    intro e he
    rw [SpatialGrid.mem_nearCells]
    obtain ⟨he1, he2, he3, he4⟩ := cellOf_inWorld_bounds (hl e he)
    obtain ⟨hc1, hc2, hc3, hc4⟩ := cellOf_inWorld_bounds hc
    have hr' : (16 : ℤ) ≤ (r : ℤ) := by exact_mod_cast hr
    constructor <;> rw [abs_le] <;> omega
  · intro E g p r e
    exact SpatialGrid.mem_get_nearby

theorem C5_witness :
    List.Perm ((SpatialGrid.build Food.pos foodsC5).get_nearby ⟨0, 0⟩ 16)
      foodsC5 := by
  apply C5_grid_roundtrip.1 Food Food.pos foodsC5 ⟨0, 0⟩ 16
  · intro e he
    unfold foodsC5 at he
    rcases List.mem_cons.1 he with rfl | he2
    · unfold inWorld WORLD_W WORLD_H
      norm_num
    · rcases List.mem_cons.1 he2 with rfl | he3
      · unfold inWorld WORLD_W WORLD_H
        norm_num
      · cases he3
  · unfold inWorld WORLD_W WORLD_H
    norm_num
  · exact le_refl 16

/-- C9 (amended): a spawn request appends exactly one predator whose
stored position is the requested point UNCHANGED — the request is never
rejected, but the position is neither clamped nor wrapped at spawn time;
an out-of-world position only becomes in-world (within the closed
intervals `[0, WORLD_W] × [0, WORLD_H]`) at the agent's next
`update_physics()`, through `edges()`. -/
theorem C9_spawn_unwrapped (s : SimState) (p v0 : Vec2) (w0 : ℝ) :
    (spawn_predator s p v0 w0).preds =
      s.preds ++ [mkPredator p predDefaultDNA v0 w0] ∧
    (mkPredator p predDefaultDNA v0 w0).pos = p ∧
    (spawn_predator s p v0 w0).food = s.food ∧
    (spawn_predator s p v0 w0).prey = s.prey ∧
    (0 ≤ (AgentState.update_physics (mkPredator p predDefaultDNA v0 w0)).pos.x ∧
      (AgentState.update_physics (mkPredator p predDefaultDNA v0 w0)).pos.x ≤
        WORLD_W ∧
      0 ≤ (AgentState.update_physics (mkPredator p predDefaultDNA v0 w0)).pos.y ∧
      (AgentState.update_physics (mkPredator p predDefaultDNA v0 w0)).pos.y ≤
        WORLD_H) :=
  ⟨rfl, rfl, rfl, rfl, AgentState.update_physics_mem _⟩

/-- C9 counterexample: a spawn request at `(-5, 3)` is accepted and the
stored position is exactly `(-5, 3)`: `x = -5 < 0`, so the spawned
predator's position is NOT in the world at spawn time. -/
theorem C9_counterexample :
    (spawn_predator stateC9 ⟨-5, 3⟩ ⟨0, 0⟩ 0).preds =
      [mkPredator ⟨-5, 3⟩ predDefaultDNA ⟨0, 0⟩ 0] ∧
    (mkPredator ⟨-5, 3⟩ predDefaultDNA ⟨0, 0⟩ 0).pos.x = -5 ∧
    ¬ 0 ≤ (mkPredator ⟨-5, 3⟩ predDefaultDNA ⟨0, 0⟩ 0).pos.x := by
  refine ⟨rfl, rfl, ?_⟩
  show ¬ (0 : ℝ) ≤ -5
  norm_num

/-- C4 (amended): pruning removes exactly the agents that are inactive
or have energy ≤ 0; a prey update either leaves energy at the
post-metabolism value or adds the 50-unit reward, and the reward branch
requires post-metabolism energy `< max_energy` (so prey energy stays
below `max_energy + 50` but CAN exceed `max_energy`); a predator update
adds its 120-unit reward with NO `max_energy` check at all, so predator
energy is not bounded by `max_energy`. -/
theorem C4_energy_bounds :
    (∀ (l : List AgentState) (p : AgentState),
      p ∈ pruneAgents l ↔ p ∈ l ∧ p.active = true ∧ 0 < p.energy) ∧
    (∀ (a : AgentState) (foods : List Food) (gF : SpatialGrid ℕ)
        (gP : SpatialGrid AgentState) (u : ℝ),
      (Prey.update a foods gF gP u).1.energy =
          a.energy - (PREY_METABOLISM + a.vel.lengthSq * 0.01) ∨
        ((Prey.update a foods gF gP u).1.energy =
            a.energy - (PREY_METABOLISM + a.vel.lengthSq * 0.01) + 50 ∧
          a.energy - (PREY_METABOLISM + a.vel.lengthSq * 0.01) <
            a.max_energy)) ∧
    (∀ (a : AgentState) (prey : List AgentState) (gPr : SpatialGrid ℕ)
        (u : ℝ),
      (Predator.update a prey gPr u).1.energy =
          a.energy - (PRED_METABOLISM + a.vel.lengthSq * 0.01) ∨
        (Predator.update a prey gPr u).1.energy =
          a.energy - (PRED_METABOLISM + a.vel.lengthSq * 0.01) + 120) := by
  refine ⟨?_, ?_, ?_⟩
  · intro l p
    unfold pruneAgents
    rw [List.mem_filter]
    simp only [Bool.and_eq_true, decide_eq_true_eq]
  · intro a foods gF gP u
    obtain ⟨_, he, hg⟩ := prey_update_cases a foods gF gP u
    cases hci : (Prey.consumedIdx a foods gF gP) with
    | none =>
      left
      rw [he, hci]
      simp
    | some j =>
      right
      constructor
      · rw [he, hci]
        simp
      · exact (hg (by rw [hci]; rfl)).2
  · intro a prey gPr u
    obtain ⟨_, he⟩ := pred_update_cases a prey gPr u
    cases hci : (Predator.consumedIdx a prey gPr) with
    | none =>
      left
      rw [he, hci]
      simp
    | some j =>
      right
      rw [he, hci]
      simp

/-- C10: the foraging loop only ever selects an active food, the hunting
loop only ever selects an active prey; one update deactivates exactly the
consumed item (ghost `consumedIdx`) and pays the reward iff one was
consumed; and across a whole pass no food index is consumed twice and no
prey index is caught twice — each 50- and 120-unit reward is paid at most
once per item per tick. -/
theorem C10_consume_at_most_once :
    (∀ (pos : Vec2) (sense : ℝ) (foods : List Food) (nb : List ℕ)
        (j : ℕ) (fd : Food),
      (foodScan pos sense foods nb).1 = some (j, fd) →
        foods[j]? = some fd ∧ fd.active = true) ∧
    (∀ (pos : Vec2) (sense : ℝ) (prey : List AgentState) (nb : List ℕ)
        (j : ℕ) (pq : AgentState),
      (preyScan pos sense prey nb).1 = some (j, pq) →
        prey[j]? = some pq ∧ pq.active = true) ∧
    (∀ (a : AgentState) (foods : List Food) (gF : SpatialGrid ℕ)
        (gP : SpatialGrid AgentState) (u : ℝ),
      (Prey.update a foods gF gP u).2 =
          (match Prey.consumedIdx a foods gF gP with
            | some j => deactivateFoodAt foods j
            | none => foods) ∧
        (Prey.update a foods gF gP u).1.energy =
          a.energy - (PREY_METABOLISM + a.vel.lengthSq * 0.01) +
            (if (Prey.consumedIdx a foods gF gP).isSome then 50 else 0)) ∧
    (∀ (a : AgentState) (prey : List AgentState) (gPr : SpatialGrid ℕ)
        (u : ℝ),
      (Predator.update a prey gPr u).2 =
          (match Predator.consumedIdx a prey gPr with
            | some j => deactivateAgentAt prey j
            | none => prey) ∧
        (Predator.update a prey gPr u).1.energy =
          a.energy - (PRED_METABOLISM + a.vel.lengthSq * 0.01) +
            (if (Predator.consumedIdx a prey gPr).isSome then 120 else 0)) ∧
    (∀ (gF : SpatialGrid ℕ) (gP : SpatialGrid AgentState)
        (l : List AgentState) (foods : List Food),
      (preyPassConsumed gF gP l foods).Nodup) ∧
    (∀ (gPr : SpatialGrid ℕ) (l prey : List AgentState),
      (predPassConsumed gPr l prey).Nodup) := by
  refine ⟨?_, ?_, ?_, ?_, preyPassConsumed_nodup, predPassConsumed_nodup⟩
  · intro pos sense foods nb j fd h
    obtain ⟨h1, h2, _⟩ := foodScan_some h
    exact ⟨h1, h2⟩
  · intro pos sense prey nb j pq h
    obtain ⟨h1, h2, _⟩ := preyScan_some h
    exact ⟨h1, h2⟩
  · intro a foods gF gP u
    obtain ⟨h1, h2, _⟩ := prey_update_cases a foods gF gP u
    exact ⟨h1, h2⟩
  · intro a prey gPr u
    exact pred_update_cases a prey gPr u

/-! ## Concrete evaluation helpers for the scenario states -/

theorem get_nearby_single {E : Type} (posOf : E → Vec2) (e : E) {p : Vec2}
    {r : ℕ} (h : cellOf (posOf e) ∈ SpatialGrid.nearCells (cellOf p) r) :
    (SpatialGrid.add posOf SpatialGrid.clear e).get_nearby p r = [e] := by
  have hperm := SpatialGrid.get_nearby_add_perm posOf SpatialGrid.clear e h
  rw [SpatialGrid.get_nearby_clear] at hperm
  exact List.perm_singleton.1 hperm

theorem get_nearby_single_out {E : Type} (posOf : E → Vec2) (e : E) {p : Vec2}
    {r : ℕ} (h : cellOf (posOf e) ∉ SpatialGrid.nearCells (cellOf p) r) :
    (SpatialGrid.add posOf SpatialGrid.clear e).get_nearby p r = [] := by
  unfold SpatialGrid.get_nearby
  rw [SpatialGrid.foldr_add_notin posOf SpatialGrid.clear e h]
  have hc := @SpatialGrid.get_nearby_clear E p r
  unfold SpatialGrid.get_nearby at hc
  exact hc

theorem predScan_single (pos : Vec2) (sense : ℝ) (p : AgentState)
    (h : pos.distance_to p.pos < sense) :
    predScan pos sense [p] = (some p, pos.distance_to p.pos) := by
  unfold predScan
  simp only [List.foldl_cons, List.foldl_nil]
  dsimp only
  rw [if_pos h]

theorem foodScan_single (pos : Vec2) (sense : ℝ) (fd : Food)
    (hact : fd.active = true) (h : pos.distance_to fd.pos < sense) :
    foodScan pos sense [fd] [0] = (some (0, fd), pos.distance_to fd.pos) := by
  unfold foodScan
  simp only [List.foldl_cons, List.foldl_nil]
  have h0 : ([fd] : List Food)[0]? = some fd := rfl
  rw [h0]
  dsimp only
  rw [if_pos hact]
  rw [if_pos h]

theorem preyScan_single (pos : Vec2) (sense : ℝ) (pq : AgentState)
    (hact : pq.active = true) (h : pos.distance_to pq.pos < sense) :
    preyScan pos sense [pq] [0] = (some (0, pq), pos.distance_to pq.pos) := by
  unfold preyScan
  simp only [List.foldl_cons, List.foldl_nil]
  have h0 : ([pq] : List AgentState)[0]? = some pq := rfl
  rw [h0]
  dsimp only
  rw [if_pos hact]
  rw [if_pos h]

theorem mem_foldl_add {E : Type} (posOf : E → Vec2) :
    ∀ (l : List E) (g : SpatialGrid E) (e : E) (c : ℤ × ℤ),
    e ∈ g c → e ∈ (l.foldl (SpatialGrid.add posOf) g) c := by
  intro l
  induction l with
  | nil =>
    intro g e c h
    exact h
  | cons x l ih =>
    intro g e c h
    simp only [List.foldl_cons]
    apply ih
    unfold SpatialGrid.add
    split
    · exact List.mem_append_left _ h
    · exact h

theorem mem_foldl_add_self {E : Type} (posOf : E → Vec2) :
    ∀ (l : List E) (g : SpatialGrid E) (e : E), e ∈ l →
    e ∈ (l.foldl (SpatialGrid.add posOf) g) (cellOf (posOf e)) := by
  intro l
  induction l with
  | nil =>
    intro g e h
    cases h
  | cons x l ih =>
    intro g e h
    simp only [List.foldl_cons]
    rcases List.mem_cons.1 h with rfl | hmem
    · apply mem_foldl_add
      unfold SpatialGrid.add
      rw [if_pos rfl]
      exact List.mem_append_right _ (List.mem_singleton.2 rfl)
    · exact ih _ e hmem

/-- Every inserted entity sits in the bucket of its own cell. -/
theorem mem_build_self {E : Type} (posOf : E → Vec2) {l : List E} {e : E}
    (h : e ∈ l) :
    e ∈ SpatialGrid.build posOf l (cellOf (posOf e)) :=
  mem_foldl_add_self posOf l SpatialGrid.clear e h

/-- Positions closer than one cell size on an axis land in the same or an
adjacent cell column. -/
theorem floor_cell_close {x y : ℝ} (h : |y - x| < CELL_SIZE) :
    |⌊y / CELL_SIZE⌋ - ⌊x / CELL_SIZE⌋| ≤ 1 := by
  have h120 : (0 : ℝ) < CELL_SIZE := by norm_num [CELL_SIZE]
  rw [abs_lt] at h
  have hdiv1 : x / CELL_SIZE - 1 < y / CELL_SIZE := by
    have hxy : x - CELL_SIZE < y := by linarith
    have h2 : (x - CELL_SIZE) / CELL_SIZE < y / CELL_SIZE := by gcongr
    rw [sub_div, div_self (ne_of_gt h120)] at h2
    linarith
  have hdiv2 : y / CELL_SIZE < x / CELL_SIZE + 1 := by
    have hxy : y < x + CELL_SIZE := by linarith
    have h2 : y / CELL_SIZE < (x + CELL_SIZE) / CELL_SIZE := by gcongr
    rw [add_div, div_self (ne_of_gt h120)] at h2
    linarith
  have hle : (⌊x / CELL_SIZE⌋ : ℤ) - 1 ≤ ⌊y / CELL_SIZE⌋ := by
    apply Int.le_floor.2
    have hx : (⌊x / CELL_SIZE⌋ : ℝ) ≤ x / CELL_SIZE := Int.floor_le _
    push_cast
    linarith
  have hlt : ⌊y / CELL_SIZE⌋ < ⌊x / CELL_SIZE⌋ + 2 := by
    apply Int.floor_lt.2
    have hx : x / CELL_SIZE < (⌊x / CELL_SIZE⌋ : ℝ) + 1 := Int.lt_floor_add_one _
    push_cast
    linarith
  rw [abs_le]
  omega

theorem cellOf_origin : cellOf (Vec2.mk 0 0) = (0, 0) :=
  cellOf_eq (by norm_num [CELL_SIZE]) (by norm_num [CELL_SIZE])
    (by norm_num [CELL_SIZE]) (by norm_num [CELL_SIZE])

theorem gFC1_nearby : gFC1.get_nearby preyC1.pos 1 = [0] := by
  have h1 : foodPosOf foodsC1 0 = foodC1.pos := rfl
  have h2 : cellOf foodC1.pos = (0, 0) :=
    cellOf_eq (by norm_num [foodC1, CELL_SIZE]) (by norm_num [foodC1, CELL_SIZE])
      (by norm_num [foodC1, CELL_SIZE]) (by norm_num [foodC1, CELL_SIZE])
  have h3 : cellOf preyC1.pos = (0, 0) := cellOf_origin
  have hcell : cellOf (foodPosOf foodsC1 0) ∈
      SpatialGrid.nearCells (cellOf preyC1.pos) 1 := by
    rw [h1, h2, h3, SpatialGrid.mem_nearCells]
    norm_num
  have hg : gFC1 =
      SpatialGrid.add (foodPosOf foodsC1) SpatialGrid.clear 0 := rfl
  rw [hg]
  exact get_nearby_single _ _ hcell

theorem foodScanC1 :
    foodScan preyC1.pos preyC1.dna.sense foodsC1 [0] =
      (some (0, foodC1), preyC1.pos.distance_to foodC1.pos) :=
  foodScan_single preyC1.pos preyC1.dna.sense foodC1 rfl
    (by
      rw [distance_lt_iff _ _
        (show (0 : ℝ) < preyC1.dna.sense by norm_num [preyC1, preyDefaultDNA])]
      norm_num [preyC1, foodC1, preyDefaultDNA, Vec2.sub, Vec2.lengthSq])

theorem distC1_near : preyC1.pos.distance_to foodC1.pos < 10 := by
  rw [distance_lt_iff _ _ (by norm_num : (0 : ℝ) < 10)]
  norm_num [preyC1, foodC1, Vec2.sub, Vec2.lengthSq]

theorem gPrC4_nearby : gPrC4.get_nearby predC4.pos 2 = [0] := by
  have h1 : agentPosOf [preyC4] 0 = preyC4.pos := rfl
  have h2 : cellOf preyC4.pos = (0, 0) :=
    cellOf_eq (by norm_num [preyC4, CELL_SIZE]) (by norm_num [preyC4, CELL_SIZE])
      (by norm_num [preyC4, CELL_SIZE]) (by norm_num [preyC4, CELL_SIZE])
  have h3 : cellOf predC4.pos = (0, 0) := cellOf_origin
  have hcell : cellOf (agentPosOf [preyC4] 0) ∈
      SpatialGrid.nearCells (cellOf predC4.pos) 2 := by
    rw [h1, h2, h3, SpatialGrid.mem_nearCells]
    norm_num
  have hg : gPrC4 =
      SpatialGrid.add (agentPosOf [preyC4]) SpatialGrid.clear 0 := rfl
  rw [hg]
  exact get_nearby_single _ _ hcell

theorem preyScanC4 :
    preyScan predC4.pos predC4.dna.sense [preyC4] [0] =
      (some (0, preyC4), predC4.pos.distance_to preyC4.pos) :=
  preyScan_single predC4.pos predC4.dna.sense preyC4 rfl
    (by
      rw [distance_lt_iff _ _
        (show (0 : ℝ) < predC4.dna.sense by
          norm_num [predC4, mkPredator, predDefaultDNA])]
      norm_num [predC4, preyC4, mkPredator, predDefaultDNA, Vec2.sub,
        Vec2.lengthSq])

theorem distC4_near : predC4.pos.distance_to preyC4.pos < 12 := by
  rw [distance_lt_iff _ _ (by norm_num : (0 : ℝ) < 12)]
  norm_num [predC4, preyC4, mkPredator, Vec2.sub, Vec2.lengthSq]

theorem gPC6_nearby : gPC6.get_nearby preyC6.pos 1 = [] := by
  have h2 : cellOf (AgentState.pos predC6) = (2, 0) :=
    cellOf_eq (by norm_num [predC6, mkPredator, CELL_SIZE])
      (by norm_num [predC6, mkPredator, CELL_SIZE])
      (by norm_num [predC6, mkPredator, CELL_SIZE])
      (by norm_num [predC6, mkPredator, CELL_SIZE])
  have h3 : cellOf preyC6.pos = (0, 0) := cellOf_origin
  have hcell : cellOf (AgentState.pos predC6) ∉
      SpatialGrid.nearCells (cellOf preyC6.pos) 1 := by
    rw [h2, h3, SpatialGrid.mem_nearCells]
    push_neg
    intro hx
    norm_num at hx
  have hg : gPC6 =
      SpatialGrid.add AgentState.pos SpatialGrid.clear predC6 := rfl
  rw [hg]
  exact get_nearby_single_out _ _ hcell

theorem foodScanC6 :
    foodScan preyC6.pos preyC6.dna.sense foodsC1 [0] =
      (some (0, foodC1), preyC6.pos.distance_to foodC1.pos) :=
  foodScan_single preyC6.pos preyC6.dna.sense foodC1 rfl
    (by
      rw [distance_lt_iff _ _
        (show (0 : ℝ) < preyC6.dna.sense by norm_num [preyC6])]
      norm_num [preyC6, foodC1, Vec2.sub, Vec2.lengthSq])

theorem distC6_near : preyC6.pos.distance_to foodC1.pos < 10 := by
  rw [distance_lt_iff _ _ (by norm_num : (0 : ℝ) < 10)]
  norm_num [preyC6, foodC1, Vec2.sub, Vec2.lengthSq]

/-- C6 (amended): the prey's decision priority is evaluated against the
predators returned by the 3 × 3-cell spatial query, filtered by true
Euclidean distance.  The flee target exists iff some grid-returned
predator is strictly within `sense`; when it exists it is a nearest such
predator and the update applies exactly the −5.0 flee steering, leaving
energy at the post-metabolism value and the food list untouched (no
foraging, even when starving); any food mutation requires no predator in
range AND post-metabolism energy below the cap; and whenever
`sense ≤ CELL_SIZE` every predator strictly within `sense` is indeed in
the grid query result — the original claim's "any predator within sense"
reading holds only under that genome bound. -/
theorem C6_flee_priority (a : AgentState) (foods : List Food)
    (gF : SpatialGrid ℕ) (gP : SpatialGrid AgentState) (u : ℝ) :
    ((predScan a.pos a.dna.sense (gP.get_nearby a.pos 1)).1 = none ↔
      ∀ p ∈ gP.get_nearby a.pos 1, ¬ a.pos.distance_to p.pos < a.dna.sense) ∧
    (∀ pp, (predScan a.pos a.dna.sense (gP.get_nearby a.pos 1)).1 = some pp →
      pp ∈ gP.get_nearby a.pos 1 ∧
      a.pos.distance_to pp.pos < a.dna.sense ∧
      (∀ q ∈ gP.get_nearby a.pos 1,
        a.pos.distance_to pp.pos ≤ a.pos.distance_to q.pos) ∧
      Prey.update a foods gF gP u =
        (AgentState.update_physics
          { a with
            energy := a.energy - (PREY_METABOLISM + a.vel.lengthSq * 0.01)
            wander_theta := (preyWander a (AgentState.steer a pp.pos (-5)) u).2
            acc := a.acc +
              (preyWander a (AgentState.steer a pp.pos (-5)) u).1 },
          foods)) ∧
    ((Prey.update a foods gF gP u).2 ≠ foods →
      (predScan a.pos a.dna.sense (gP.get_nearby a.pos 1)).1 = none ∧
      a.energy - (PREY_METABOLISM + a.vel.lengthSq * 0.01) < a.max_energy) ∧
    (∀ (preds : List AgentState) (pp : AgentState),
      a.dna.sense ≤ CELL_SIZE → pp ∈ preds →
      a.pos.distance_to pp.pos < a.dna.sense →
      pp ∈ (SpatialGrid.build AgentState.pos preds).get_nearby a.pos 1) := by
  refine ⟨predScan_none_iff, ?_, ?_, ?_⟩
  · intro pp h
    obtain ⟨h1, h2, _, h4⟩ := predScan_some h
    exact ⟨h1, h2, h4, Prey.update_flee h⟩
  · intro hne
    obtain ⟨h1, _, hg⟩ := prey_update_cases a foods gF gP u
    cases hci : Prey.consumedIdx a foods gF gP with
    | none =>
      rw [hci] at h1
      exact absurd h1 hne
    | some j =>
      exact hg (by rw [hci]; rfl)
  · intro preds pp hsense hmem hdist
    apply SpatialGrid.mem_get_nearby.2
    refine ⟨cellOf pp.pos, ?_, ?_, mem_build_self AgentState.pos hmem⟩
    · have hx : |pp.pos.x - a.pos.x| ≤ a.pos.distance_to pp.pos :=
        Vec2.abs_sub_x_le_distance a.pos pp.pos
      have hlt : |pp.pos.x - a.pos.x| < CELL_SIZE :=
        lt_of_le_of_lt hx (lt_of_lt_of_le hdist hsense)
      have hfl := floor_cell_close hlt
      simp only [cellOf]
      exact_mod_cast hfl
    · have hy : |pp.pos.y - a.pos.y| ≤ a.pos.distance_to pp.pos :=
        Vec2.abs_sub_y_le_distance a.pos pp.pos
      have hlt : |pp.pos.y - a.pos.y| < CELL_SIZE :=
        lt_of_le_of_lt hy (lt_of_lt_of_le hdist hsense)
      have hfl := floor_cell_close hlt
      simp only [cellOf]
      exact_mod_cast hfl

/-- C6 witness: a predator 5 units from a default prey (sense 100 ≤
CELL_SIZE) is returned by the prey's spatial query. -/
theorem C6_witness :
    predC6w ∈ (SpatialGrid.build AgentState.pos [predC6w]).get_nearby
      preyC1.pos 1 :=
  (C6_flee_priority preyC1 foodsC1 gFC1 gPC6 0).2.2.2 [predC6w] predC6w
    (by norm_num [preyC1, preyDefaultDNA, CELL_SIZE])
    (List.mem_singleton.2 rfl)
    (by
      rw [distance_lt_iff _ _
        (show (0 : ℝ) < preyC1.dna.sense by norm_num [preyC1, preyDefaultDNA])]
      norm_num [preyC1, predC6w, mkPredator, preyDefaultDNA, Vec2.sub,
        Vec2.lengthSq])

/-- C6 counterexample: a prey with mutated `sense = 300` and a predator
250 units away (strictly within sense by true Euclidean distance, but
outside the 3 × 3 grid block) still forages: its update consumes the
food (+50 energy, food deactivated) instead of fleeing. -/
theorem C6_counterexample :
    preyC6.pos.distance_to predC6.pos < preyC6.dna.sense ∧
      (Prey.update preyC6 foodsC1 gFC1 gPC6 0).1.energy = 149.5 ∧
      (Prey.update preyC6 foodsC1 gFC1 gPC6 0).2 = [⟨⟨5, 0⟩, false⟩] := by
  have hdist : preyC6.pos.distance_to predC6.pos < preyC6.dna.sense := by
    rw [distance_lt_iff _ _ (show (0 : ℝ) < preyC6.dna.sense by
      norm_num [preyC6])]
    norm_num [preyC6, predC6, mkPredator, Vec2.sub, Vec2.lengthSq]
  have hscan : (predScan preyC6.pos preyC6.dna.sense
      (gPC6.get_nearby preyC6.pos 1)).1 = none := by
    rw [gPC6_nearby]
    rfl
  have hfull : preyC6.energy - (PREY_METABOLISM + preyC6.vel.lengthSq * 0.01) <
      preyC6.max_energy := by
    norm_num [preyC6, PREY_METABOLISM, Vec2.lengthSq]
  have hnF : gFC1.get_nearby preyC6.pos 1 = [0] := gFC1_nearby
  have hfs : foodScan preyC6.pos preyC6.dna.sense foodsC1
      (gFC1.get_nearby preyC6.pos 1) =
      (some (0, foodC1), preyC6.pos.distance_to foodC1.pos) := by
    rw [hnF]
    exact foodScanC6
  have hupd := @Prey.update_forage_eat preyC6 foodsC1 gFC1 gPC6 0 0 foodC1
    (preyC6.pos.distance_to foodC1.pos) hscan hfull hfs distC6_near
  refine ⟨hdist, ?_, ?_⟩
  · rw [hupd]
    dsimp only
    rw [AgentState.update_physics_energy]
    norm_num [preyC6, PREY_METABOLISM, Vec2.lengthSq]
  · rw [hupd]
    rfl

/-- C1 (amended): each species' pass equals its pure update phase
followed by a per-parent reproduction step: a parent spawns exactly one
offspring iff its POST-UPDATE energy (after this tick's metabolism and
feeding) exceeds `REPRO_COST_PREY + 50` (resp. `REPRO_COST_PRED + 50`);
a reproducing parent's energy drops by exactly the reproduction cost;
the offspring is created at the parent's (post-update) position with the
mutated genome; and offspring are collected in a separate list appended
after the pass, never updated or reproduced within the same tick. -/
theorem C1_reproduction_pass :
    (∀ (gF : SpatialGrid ℕ) (gP : SpatialGrid AgentState)
        (R : ℕ → AgentRnd) (i : ℕ) (l : List AgentState) (foods : List Food),
      preyPassAux gF gP R i l foods =
        ((preyUpdPhase gF gP R i l foods).1.map reproParentPrey,
         (preyUpdPhase gF gP R i l foods).2,
         ((preyUpdPhase gF gP R i l foods).1.enumFrom i).filterMap
           (reproChildPrey R)) ∧
      (preyUpdPhase gF gP R i l foods).1.length = l.length) ∧
    (∀ (gPr : SpatialGrid ℕ) (R : ℕ → AgentRnd) (i : ℕ)
        (l prey : List AgentState),
      predPassAux gPr R i l prey =
        ((predUpdPhase gPr R i l prey).1.map reproParentPred,
         (predUpdPhase gPr R i l prey).2,
         ((predUpdPhase gPr R i l prey).1.enumFrom i).filterMap
           (reproChildPred R)) ∧
      (predUpdPhase gPr R i l prey).1.length = l.length) :=
  ⟨fun gF gP R i l foods =>
    ⟨preyPassAux_eq gF gP R i l foods, preyUpdPhase_length gF gP R i l foods⟩,
   fun gPr R i l prey =>
    ⟨predPassAux_eq gPr R i l prey, predUpdPhase_length gPr R i l prey⟩⟩

/-- C1 counterexample: a prey with PRE-TICK energy 149 (below the
threshold 150) eats a food pellet during the same tick and then does
reproduce — the pass produces exactly one offspring — so "reproduces iff
pre-tick energy exceeds `REPRO_COST_PREY + 50`" is false on the code:
the threshold is tested on post-update energy. -/
theorem C1_counterexample :
    ¬ preyC1.energy > REPRO_COST_PREY + 50 ∧
      (preyPassAux gFC1 SpatialGrid.clear (fun _ => rnd0) 0 [preyC1]
        foodsC1).2.2.length = 1 := by
  constructor
  · norm_num [preyC1, REPRO_COST_PREY]
  · have hscan : (predScan preyC1.pos preyC1.dna.sense
        ((SpatialGrid.clear : SpatialGrid AgentState).get_nearby
          preyC1.pos 1)).1 = none := by
      rw [SpatialGrid.get_nearby_clear]
      rfl
    have hfull : preyC1.energy -
        (PREY_METABOLISM + preyC1.vel.lengthSq * 0.01) < preyC1.max_energy := by
      norm_num [preyC1, PREY_METABOLISM, Vec2.lengthSq]
    have hfs : foodScan preyC1.pos preyC1.dna.sense foodsC1
        (gFC1.get_nearby preyC1.pos 1) =
        (some (0, foodC1), preyC1.pos.distance_to foodC1.pos) := by
      rw [gFC1_nearby]
      exact foodScanC1
    have hupd := @Prey.update_forage_eat preyC1 foodsC1 gFC1
      SpatialGrid.clear rnd0.u 0 foodC1
      (preyC1.pos.distance_to foodC1.pos) hscan hfull hfs distC1_near
    have henergy : (Prey.update preyC1 foodsC1 gFC1 SpatialGrid.clear
        rnd0.u).1.energy = 198.5 := by
      rw [hupd]
      dsimp only
      rw [AgentState.update_physics_energy]
      norm_num [preyC1, PREY_METABOLISM, Vec2.lengthSq]
    simp only [preyPassAux]
    rw [if_pos (show (Prey.update preyC1 foodsC1 gFC1 SpatialGrid.clear
        rnd0.u).1.energy > REPRO_COST_PREY + 50 by
      rw [henergy]
      norm_num [REPRO_COST_PREY])]
    rfl

/-- C4 counterexample: a predator with energy 300 and `max_energy` 400
catches a prey 7.5 units away; the feeding reward leaves it at energy
419.2 > 400 — the `[0, max_energy]` bound is violated by predator
feeding. -/
theorem C4_counterexample :
    (Predator.update predC4 [preyC4] gPrC4 0).1.energy = 419.2 ∧
      (Predator.update predC4 [preyC4] gPrC4 0).1.max_energy = 400 ∧
      (Predator.update predC4 [preyC4] gPrC4 0).1.max_energy <
        (Predator.update predC4 [preyC4] gPrC4 0).1.energy := by
  have hfs : preyScan predC4.pos predC4.dna.sense [preyC4]
      (gPrC4.get_nearby predC4.pos 2) =
      (some (0, preyC4), predC4.pos.distance_to preyC4.pos) := by
    rw [gPrC4_nearby]
    exact preyScanC4
  have hupd := @Predator.update_catch predC4 [preyC4] gPrC4 0 0 preyC4
    (predC4.pos.distance_to preyC4.pos) hfs distC4_near
  have he : (Predator.update predC4 [preyC4] gPrC4 0).1.energy = 419.2 := by
    rw [hupd]
    dsimp only
    rw [AgentState.update_physics_energy]
    norm_num [predC4, mkPredator, PRED_METABOLISM, Vec2.lengthSq]
  have hm : (Predator.update predC4 [preyC4] gPrC4 0).1.max_energy = 400 := by
    rw [hupd]
    dsimp only
    rw [AgentState.update_physics_max_energy]
    rfl
  refine ⟨he, hm, ?_⟩
  rw [he, hm]
  norm_num

theorem C10_witness : foodsC1[0]? = some foodC1 ∧ foodC1.active = true :=
  C10_consume_at_most_once.1 preyC1.pos preyC1.dna.sense foodsC1 [0] 0 foodC1
    (by rw [foodScanC1])

end BioSim
